import Mathlib

/-!
# lp-webhook: payment lifecycle coordinator of `server.js`

A shallow embedding of the bank auth client, the payment store, the QR payment
service, the status poller, the webhook notifier and the two API handlers of
`src/server.js`, followed by the properties proved about them.

Modelling conventions:

* JavaScript values are the JSON values that reach the program (request
  bodies, provider responses, the contents of `payments.json`) plus
  `undefined` for an absent field.  An array or object is known to the model
  through the string its `toString()` yields, which is all `Number(...)` and
  `String(...)` observe of it.
* The built-ins whose exact behaviour depends on Unicode tables or on
  floating-point formatting (`StringToNumber`, `Number::toString`,
  `toUpperCase`, `toLowerCase`) are fields of a `JSRuntime`; every general
  theorem holds for every runtime, and `refRuntime` is the instance used for
  evaluation on concrete inputs.
* `payments.json` is absent, unreadable, or holds a JSON object that maps
  payment ids to record objects; a file that holds an array or a primitive
  is outside the model.  A write replaces the whole file and is taken to
  succeed.  A read `payments[paymentId]` also finds the members inherited
  from `Object.prototype`.
* `new Date().toISOString()` is the parameter `now`: the clock does not
  advance while one call is handled.
* The outcome of the `i`-th `axios.post` of a delivery is `post i`.
* Times of the token cache are milliseconds since the epoch, as natural
  numbers.
-/

set_option autoImplicit false

namespace LpWebhook

deriving instance DecidableEq for Except

/-! ## JavaScript values -/

/-- A JavaScript number: the result type of `Number(...)`.  Both zeros are
`fin 0`; they are indistinguishable by `===`, truthiness and `isNaN`. -/
inductive JSNum
  | nan
  | posInf
  | negInf
  | fin (q : ℚ)
  deriving DecidableEq

/-- A JavaScript value as the program meets it.  `obj text` is an array or a
plain object whose `toString()` is `text`. -/
inductive JSValue
  | undefined
  | null
  | bool (b : Bool)
  | num (x : JSNum)
  | str (s : String)
  | obj (text : String)
  deriving DecidableEq

/-- The built-ins of the JavaScript runtime that the program calls on
strings and numbers. -/
structure JSRuntime where
  /-- The abstract operation `StringToNumber` behind `Number(s)`. -/
  stringToNumber : String → JSNum
  /-- The abstract operation `Number::toString` behind `String(x)`. -/
  numberToString : JSNum → String
  /-- The method `String.prototype.toUpperCase`. -/
  toUpperCase : String → String
  /-- The method `String.prototype.toLowerCase`. -/
  toLowerCase : String → String

namespace JSValue

/-- JavaScript truthiness (`ToBoolean`). -/
def truthy : JSValue → Bool
  | undefined => false
  | null => false
  | bool b => b
  | num JSNum.nan => false
  | num (JSNum.fin q) => decide (q ≠ 0)
  | num _ => true
  | str s => decide (s ≠ "")
  | obj _ => true

/-- The operator `a || b`. -/
def or (a b : JSValue) : JSValue := if a.truthy then a else b

/-- The operator `a ?? b`. -/
def nullish (a b : JSValue) : JSValue :=
  match a with
  | undefined => b
  | null => b
  | _ => a

/-- The conversion `Number(v)`. -/
def toNumber (rt : JSRuntime) : JSValue → JSNum
  | undefined => JSNum.nan
  | null => JSNum.fin 0
  | bool true => JSNum.fin 1
  | bool false => JSNum.fin 0
  | num x => x
  | str s => rt.stringToNumber s
  | obj text => rt.stringToNumber text

/-- The conversion `String(v)`. -/
def toStr (rt : JSRuntime) : JSValue → String
  | undefined => "undefined"
  | null => "null"
  | bool true => "true"
  | bool false => "false"
  | num x => rt.numberToString x
  | str s => s
  | obj text => text

end JSValue

/-! ## Reference runtime -/

/-- White space and line terminators stripped by `StringToNumber`. -/
def isJSWhiteSpace (c : Char) : Bool :=
  let n := c.toNat
  n = 9 || n = 10 || n = 11 || n = 12 || n = 13 || n = 32 || n = 160 ||
  n = 5760 || (8192 ≤ n && n ≤ 8202) || n = 8232 || n = 8233 || n = 8239 ||
  n = 8287 || n = 12288 || n = 65279

/-- Value of a digit character in the given radix. -/
def digitValue (radix : Nat) (c : Char) : Option Nat :=
  let n := c.toNat
  let d :=
    if 48 ≤ n ∧ n ≤ 57 then some (n - 48)
    else if 97 ≤ n ∧ n ≤ 102 then some (n - 87)
    else if 65 ≤ n ∧ n ≤ 70 then some (n - 55)
    else none
  match d with
  | some k => if k < radix then some k else none
  | none => none

/-- Value of a non-empty run of digits in the given radix. -/
def digitsValue (radix : Nat) : List Char → Option Nat
  | [] => none
  | cs => cs.foldlM (fun acc c => (digitValue radix c).map (fun d => acc * radix + d)) 0

/-- Splits a list at the first element satisfying `p`, dropping that element. -/
def splitAtFirst (p : Char → Bool) : List Char → List Char × Option (List Char)
  | [] => ([], none)
  | c :: cs =>
    if p c then ([], some cs)
    else
      let r := splitAtFirst p cs
      (c :: r.1, r.2)

/-- Strips an optional sign, returning whether it was a minus. -/
def takeSign : List Char → Bool × List Char
  | '-' :: cs => (true, cs)
  | '+' :: cs => (false, cs)
  | cs => (false, cs)

/-- Round a non-negative rational to the nearest integer, ties to even. -/
def roundHalfEven (q : ℚ) : Nat :=
  let f := (Rat.floor q).toNat
  let r := q - f
  if r < 1 / 2 then f
  else if 1 / 2 < r then f + 1
  else if f % 2 = 0 then f else f + 1

/-- Two to an integer power, as a rational. -/
def twoPow (e : Int) : ℚ :=
  match e with
  | Int.ofNat n => (2 : ℚ) ^ n
  | Int.negSucc n => 1 / (2 : ℚ) ^ (n + 1)

/-- Rounds a real (rational) value to the nearest IEEE-754 double, ties to
even, overflowing to an infinity. -/
def roundToDouble (q : ℚ) : JSNum :=
  if q = 0 then JSNum.fin 0
  else
    let a := |q|
    let e0 : Int := (Nat.log2 a.num.natAbs : Int) - (Nat.log2 a.den : Int)
    let e : Int := if a < twoPow e0 then e0 - 1 else if twoPow (e0 + 1) ≤ a then e0 + 1 else e0
    let p : Int := max (e - 52) (-1074)
    let m := roundHalfEven (a / twoPow p)
    let v : ℚ := (m : ℚ) * twoPow p
    if twoPow 1024 ≤ v then (if q < 0 then JSNum.negInf else JSNum.posInf)
    else JSNum.fin (if q < 0 then -v else v)

/-- The mathematical value of an unsigned decimal literal
(`digits`, `digits.`, `digits.digits`, `.digits`, each with an optional
exponent part), or `none` when the characters are not such a literal. -/
def unsignedDecimalValue (cs : List Char) : Option ℚ :=
  let me := splitAtFirst (fun c => c = 'e' || c = 'E') cs
  let ip := splitAtFirst (fun c => c = '.') me.1
  let intPart := ip.1
  let fracPart := ip.2.getD []
  let mant : Option ℚ :=
    if intPart = [] ∧ fracPart = [] then none
    else
      match (if intPart = [] then some 0 else digitsValue 10 intPart),
            (if fracPart = [] then some 0 else digitsValue 10 fracPart) with
      | some i, some f => some ((i : ℚ) + (f : ℚ) / (10 : ℚ) ^ fracPart.length)
      | _, _ => none
  match mant, me.2 with
  | some m, none => some m
  | some m, some ex =>
    let se := takeSign ex
    match digitsValue 10 se.2 with
    | some k => some (if se.1 then m / (10 : ℚ) ^ k else m * (10 : ℚ) ^ k)
    | none => none
  | none, _ => none

/-- The abstract operation `StringToNumber` on the characters of a string. -/
def stringToNumberChars (raw : List Char) : JSNum :=
  let cs := ((raw.dropWhile isJSWhiteSpace).reverse.dropWhile isJSWhiteSpace).reverse
  match cs with
  | [] => JSNum.fin 0
  | '0' :: 'x' :: ds | '0' :: 'X' :: ds =>
    match digitsValue 16 ds with
    | some n => roundToDouble n
    | none => JSNum.nan
  | '0' :: 'o' :: ds | '0' :: 'O' :: ds =>
    match digitsValue 8 ds with
    | some n => roundToDouble n
    | none => JSNum.nan
  | '0' :: 'b' :: ds | '0' :: 'B' :: ds =>
    match digitsValue 2 ds with
    | some n => roundToDouble n
    | none => JSNum.nan
  | _ =>
    let sg := takeSign cs
    if sg.2 = "Infinity".data then (if sg.1 then JSNum.negInf else JSNum.posInf)
    else
      match unsignedDecimalValue sg.2 with
      | some q => roundToDouble (if sg.1 then -q else q)
      | none => JSNum.nan

/-- Upper-cases the characters whose upper case is an ASCII letter: the ASCII
letters themselves, dotless i (U+0131) and long s (U+017F). -/
def upperChar (c : Char) : Char :=
  if c.toNat = 305 then 'I'
  else if c.toNat = 383 then 'S'
  else c.toUpper

/-- Lower-cases the characters whose lower case is an ASCII letter: the ASCII
letters themselves and the Kelvin sign (U+212A). -/
def lowerChar (c : Char) : Char :=
  if c.toNat = 8490 then 'k' else c.toLower

/-- Ten to an integer power, as a rational. -/
def tenPow (e : Int) : ℚ :=
  match e with
  | Int.ofNat n => (10 : ℚ) ^ n
  | Int.negSucc n => 1 / (10 : ℚ) ^ (n + 1)

/-- The integer `n` with `10^(n-1) ≤ x < 10^n`, for a positive `x`. -/
def decimalExponent (x : ℚ) : Int :=
  let n0 : Int := ((Nat.toDigits 10 x.num.natAbs).length : Int) - ((Nat.toDigits 10 x.den).length : Int)
  if tenPow n0 ≤ x then n0 + 1 else n0

/-- The `k`-digit decimal `s × 10^(n-k)` that `Number::toString` picks for the
positive double `x` with `10^(n-1) ≤ x < 10^n`, if one reads back as `x`: of
the two candidates around `x` the nearer one, the even one on a tie.  The
result is `(s, n)`; a candidate `10^k` is `10^(k-1)` with `n + 1`. -/
def digitsOfLength (x : ℚ) (n : Int) (k : Nat) : Option (Nat × Int) :=
  let scale := tenPow (n - k)
  let lo := (Rat.floor (x / scale)).toNat
  let hi := lo + 1
  let readsBack (c : Nat) : Bool := decide (roundToDouble ((c : ℚ) * scale) = JSNum.fin x)
  let norm (c : Nat) : Nat × Int := if c = 10 ^ k then (10 ^ (k - 1), n + 1) else (c, n)
  let dLo := x / scale - lo
  let dHi := (hi : ℚ) - x / scale
  match readsBack lo, readsBack hi with
  | true, true =>
    if dLo < dHi then some (norm lo)
    else if dHi < dLo then some (norm hi)
    else if lo % 2 = 0 then some (norm lo) else some (norm hi)
  | true, false => some (norm lo)
  | false, true => some (norm hi)
  | false, false => none

/-- The text `Number::toString` makes of the digits `s` (of which there are
`k`) and the exponent `n`. -/
def formatDigits (s : Nat) (n : Int) : String :=
  let ds := Nat.toDigits 10 s
  let k : Int := ds.length
  let zeros (m : Int) : List Char := List.replicate m.toNat '0'
  if k ≤ n ∧ n ≤ 21 then String.mk (ds ++ zeros (n - k))
  else if 0 < n ∧ n ≤ 21 then String.mk (ds.take n.toNat ++ '.' :: ds.drop n.toNat)
  else if -6 < n ∧ n ≤ 0 then String.mk ('0' :: '.' :: zeros (-n) ++ ds)
  else
    let e := n - 1
    let exponent : List Char :=
      'e' :: (if e < 0 then '-' else '+') :: Nat.toDigits 10 e.natAbs
    match ds with
    | [d] => String.mk (d :: exponent)
    | d :: rest => String.mk (d :: '.' :: rest ++ exponent)
    | [] => String.mk exponent

/-- The abstract operation `Number::toString` (radix 10) on a positive
double: the shortest digit string that reads back as the same double. -/
def positiveToString (x : ℚ) : String :=
  let n := decimalExponent x
  match (List.range 17).findSome? (fun i => digitsOfLength x n (i + 1)) with
  | some (s, m) => formatDigits s m
  | none => formatDigits (Rat.floor (x / tenPow (n - 17))).toNat n

/-- The abstract operation `Number::toString` (radix 10); a finite value is
first rounded to the nearest double. -/
def numberToStringRef : JSNum → String
  | JSNum.nan => "NaN"
  | JSNum.posInf => "Infinity"
  | JSNum.negInf => "-Infinity"
  | JSNum.fin q =>
    match roundToDouble q with
    | JSNum.fin x =>
      if x = 0 then "0"
      else if x < 0 then "-" ++ positiveToString (-x)
      else positiveToString x
    | JSNum.posInf => "Infinity"
    | JSNum.negInf => "-Infinity"
    | JSNum.nan => "NaN"

/-- The runtime used to evaluate the model on concrete inputs.  Case
conversion is exact on ASCII text. -/
def refRuntime : JSRuntime where
  stringToNumber := fun s => stringToNumberChars s.data
  numberToString := numberToStringRef
  toUpperCase := fun s => String.mk (s.data.map upperChar)
  toLowerCase := fun s => String.mk (s.data.map lowerChar)

/-! ## Status poller -/

/-- The body of a `getQRStatusAsync` response, `r.data`; an absent field is
`undefined`. -/
structure StatusData where
  success : JSValue
  message : JSValue
  statusId : JSValue
  qrId : JSValue
  qrStatus : JSValue
  status : JSValue
  expirationDate : JSValue
  id : JSValue
  voucherId : JSValue
  deriving DecidableEq

/-- What `apiClient.post(.../getQRStatusAsync)` does: it rejects with an
error (network fault, HTTP error status, failed authentication) or resolves
with a response body. -/
inductive ProviderReply
  | rejected (errorMessage : String)
  | data (d : StatusData)
  deriving DecidableEq

/-- The object returned by `checkQRSimpleStatus`, also the `statusObj`
argument of `updateStoredPaymentStatus`.  `payment_date` and `amount` are read
by the callers and never set by the poller. -/
structure StatusResult where
  success : JSValue
  qr_id : JSValue
  status : JSValue
  is_paid : JSValue
  expirationDate : JSValue
  provider_status_code : JSValue
  provider_qr_id : JSValue
  voucher_id : JSValue
  payment_date : JSValue
  amount : JSValue
  deriving DecidableEq

/-- The expression
`data?.statusId ?? data?.qrId ?? data?.qrStatus ?? data?.status ?? null`. -/
def statusCodeRaw (data : StatusData) : JSValue :=
  (((data.statusId.nullish data.qrId).nullish data.qrStatus).nullish data.status).nullish
    JSValue.null

/-- The normalisation of the raw status indicator into `(status, isPaid)`:
the numeric branch when `Number(statusCodeRaw)` is not `NaN`, the string
branch on `String(statusCodeRaw || '').toUpperCase()` otherwise. -/
def normaliseStatus (rt : JSRuntime) (statusCodeRaw : JSValue) : String × Bool :=
  let statusNum := statusCodeRaw.toNumber rt
  if statusNum ≠ JSNum.nan then
    if statusNum = JSNum.fin 2 then ("paid", true)
    else if statusNum = JSNum.fin 3 then ("expired", false)
    else if statusNum = JSNum.fin 4 then ("error", false)
    else ("pending", false)
  else
    let sc := rt.toUpperCase ((statusCodeRaw.or (JSValue.str "")).toStr rt)
    if sc = "USED" ∨ sc = "PAID" then ("paid", true)
    else if sc = "EXPIRED" then ("expired", false)
    else if sc = "ERROR" then ("error", false)
    else ("pending", false)

/-- The result of the `catch` branch of `checkQRSimpleStatus`. -/
def pendingResult (rt : JSRuntime) (qrId : JSValue) : StatusResult where
  success := JSValue.bool true
  qr_id := JSValue.str (qrId.toStr rt)
  status := JSValue.str "pending"
  is_paid := JSValue.bool false
  expirationDate := JSValue.undefined
  provider_status_code := JSValue.undefined
  provider_qr_id := JSValue.undefined
  voucher_id := JSValue.undefined
  payment_date := JSValue.undefined
  amount := JSValue.undefined

/-- The function `checkQRSimpleStatus(qrId)` run against a provider that
answers `reply`. -/
def checkQRSimpleStatus (rt : JSRuntime) (qrId : JSValue) (reply : ProviderReply) :
    StatusResult :=
  match reply with
  | ProviderReply.rejected _ => pendingResult rt qrId
  | ProviderReply.data data =>
    if data.success = JSValue.bool false then pendingResult rt qrId
    else
      let raw := statusCodeRaw data
      let n := normaliseStatus rt raw
      { success := JSValue.bool true
        qr_id := JSValue.str (qrId.toStr rt)
        status := JSValue.str n.1
        is_paid := JSValue.bool n.2
        expirationDate := data.expirationDate.nullish JSValue.null
        provider_status_code := raw
        provider_qr_id := data.id.nullish JSValue.null
        voucher_id := data.voucherId.nullish JSValue.null
        payment_date := JSValue.undefined
        amount := JSValue.undefined }

/-! ## Payment store -/

/-- The `customer` object of a request body and of a payment record. -/
structure Customer where
  name : JSValue
  email : JSValue
  phone : JSValue
  deriving DecidableEq

/-- A payment record: every field that `server.js` writes or reads on the
objects kept in `payments.json`; an absent field is `undefined`. -/
structure PaymentRecord where
  success : JSValue
  transaction_id : JSValue
  payment_id : JSValue
  qr_id : JSValue
  qr_code_image : JSValue
  qr_code_text : JSValue
  amount_bob : JSValue
  amount : JSValue
  currency : JSValue
  expires_at : JSValue
  status : JSValue
  is_paid : JSValue
  customer : Option Customer
  extras : JSValue
  product : JSValue
  product_type : JSValue
  created_at : JSValue
  updated_at : JSValue
  payment_date : JSValue
  gloss : JSValue
  webhook_notified : JSValue
  webhook_notified_at : JSValue
  provider_status_code : JSValue
  provider_qr_id : JSValue
  voucher_id : JSValue
  deriving DecidableEq

/-- What `JSON.stringify` followed by `JSON.parse` makes of a value: `NaN`
and the infinities become `null`. -/
def JSValue.toJSON : JSValue → JSValue
  | JSValue.num JSNum.nan => JSValue.null
  | JSValue.num JSNum.posInf => JSValue.null
  | JSValue.num JSNum.negInf => JSValue.null
  | v => v

/-- The JSON round trip of a customer object. -/
def Customer.toJSON (c : Customer) : Customer where
  name := c.name.toJSON
  email := c.email.toJSON
  phone := c.phone.toJSON

/-- The JSON round trip of a record built in memory. -/
def PaymentRecord.toJSON (r : PaymentRecord) : PaymentRecord where
  success := r.success.toJSON
  transaction_id := r.transaction_id.toJSON
  payment_id := r.payment_id.toJSON
  qr_id := r.qr_id.toJSON
  qr_code_image := r.qr_code_image.toJSON
  qr_code_text := r.qr_code_text.toJSON
  amount_bob := r.amount_bob.toJSON
  amount := r.amount.toJSON
  currency := r.currency.toJSON
  expires_at := r.expires_at.toJSON
  status := r.status.toJSON
  is_paid := r.is_paid.toJSON
  customer := r.customer.map Customer.toJSON
  extras := r.extras.toJSON
  product := r.product.toJSON
  product_type := r.product_type.toJSON
  created_at := r.created_at.toJSON
  updated_at := r.updated_at.toJSON
  payment_date := r.payment_date.toJSON
  gloss := r.gloss.toJSON
  webhook_notified := r.webhook_notified.toJSON
  webhook_notified_at := r.webhook_notified_at.toJSON
  provider_status_code := r.provider_status_code.toJSON
  provider_qr_id := r.provider_qr_id.toJSON
  voucher_id := r.voucher_id.toJSON

/-- The parsed contents of `payments.json`, a plain object: its own
properties, payment id to record, in key order. -/
abbrev Payments := List (String × PaymentRecord)

/-- The own property `paymentId` of `payments`, if there is one. -/
def Payments.get (payments : Payments) (paymentId : String) : Option PaymentRecord :=
  match payments with
  | [] => none
  | (k, r) :: rest => if k = paymentId then some r else Payments.get rest paymentId

/-- The property names that every plain object inherits from
`Object.prototype`. -/
def objectPrototypeNames : List String :=
  ["constructor", "__defineGetter__", "__defineSetter__", "hasOwnProperty",
   "__lookupGetter__", "__lookupSetter__", "isPrototypeOf", "propertyIsEnumerable",
   "toString", "valueOf", "__proto__", "toLocaleString"]

/-- What the program reads of a member inherited from `Object.prototype` (a
function, or `Object.prototype` itself for `__proto__`): a truthy value on
which every record field is `undefined`. -/
def PaymentRecord.inherited : PaymentRecord where
  success := JSValue.undefined
  transaction_id := JSValue.undefined
  payment_id := JSValue.undefined
  qr_id := JSValue.undefined
  qr_code_image := JSValue.undefined
  qr_code_text := JSValue.undefined
  amount_bob := JSValue.undefined
  amount := JSValue.undefined
  currency := JSValue.undefined
  expires_at := JSValue.undefined
  status := JSValue.undefined
  is_paid := JSValue.undefined
  customer := none
  extras := JSValue.undefined
  product := JSValue.undefined
  product_type := JSValue.undefined
  created_at := JSValue.undefined
  updated_at := JSValue.undefined
  payment_date := JSValue.undefined
  gloss := JSValue.undefined
  webhook_notified := JSValue.undefined
  webhook_notified_at := JSValue.undefined
  provider_status_code := JSValue.undefined
  provider_qr_id := JSValue.undefined
  voucher_id := JSValue.undefined

/-- The property read `payments[paymentId]`: the own property, else the
member inherited from `Object.prototype`, else `undefined` (`none`). -/
def Payments.read (payments : Payments) (paymentId : String) : Option PaymentRecord :=
  match payments.get paymentId with
  | some r => some r
  | none => if paymentId ∈ objectPrototypeNames then some PaymentRecord.inherited else none

/-- The number a property name stands for when it is an array index: a
decimal numeral without leading zero below `2^32 - 1`. -/
def arrayIndex (name : String) : Option Nat :=
  match name.data with
  | [] => none
  | ['0'] => some 0
  | '0' :: _ => none
  | cs =>
    if cs.all Char.isDigit then
      let n := cs.foldl (fun acc c => acc * 10 + (c.toNat - 48)) 0
      if n < 4294967295 then some n else none
    else none

/-- Whether a new key `name` is enumerated before the existing key `other`:
array indices come first, in ascending order. -/
def keyPrecedes (name other : String) : Bool :=
  match arrayIndex name, arrayIndex other with
  | some i, some j => decide (i < j)
  | some _, none => true
  | none, _ => false

/-- The property write `payments[paymentId] = record`: an existing own
property keeps its place; a new array index goes among the indices, any other
new key goes last; and the name `__proto__`, when it is not an own property,
reaches the setter of `Object.prototype`, which adds no property. -/
def Payments.set (payments : Payments) (paymentId : String) (record : PaymentRecord) :
    Payments :=
  match payments with
  | [] => if paymentId = "__proto__" then [] else [(paymentId, record)]
  | (k, r) :: rest =>
    if k = paymentId then (k, record) :: rest
    else if keyPrecedes paymentId k then (paymentId, record) :: (k, r) :: rest
    else (k, r) :: Payments.set rest paymentId record

/-- The state of the file `payments.json`: absent; `unreadable` when it
exists and reading it, parsing it or indexing the parsed value raises (the
text is not JSON, or is the JSON `null`), with the message of the exception;
`present` when it holds a JSON object. -/
inductive StoreFile
  | missing
  | unreadable (errorMessage : String)
  | present (payments : Payments)
  deriving DecidableEq

/-- The function `storePaymentData(paymentData)`. -/
def storePaymentData (rt : JSRuntime) (file : StoreFile) (paymentData : PaymentRecord) :
    StoreFile :=
  match file with
  | StoreFile.missing =>
    StoreFile.present (Payments.set [] (paymentData.payment_id.toStr rt) paymentData.toJSON)
  | StoreFile.unreadable e => StoreFile.unreadable e
  | StoreFile.present payments =>
    StoreFile.present (payments.set (paymentData.payment_id.toStr rt) paymentData.toJSON)

/-- The function `getStoredPaymentData(paymentId)`; `none` is `null`. -/
def getStoredPaymentData (file : StoreFile) (paymentId : String) : Option PaymentRecord :=
  match file with
  | StoreFile.missing => none
  | StoreFile.unreadable _ => none
  | StoreFile.present payments => payments.read paymentId

/-- The function `updateStoredPaymentStatus(paymentId, statusObj)`. -/
def updateStoredPaymentStatus (now : String) (file : StoreFile) (paymentId : String)
    (statusObj : StatusResult) : StoreFile :=
  match file with
  | StoreFile.missing => StoreFile.missing
  | StoreFile.unreadable e => StoreFile.unreadable e
  | StoreFile.present payments =>
    match payments.read paymentId with
    | none => StoreFile.present payments
    | some current =>
      StoreFile.present (payments.set paymentId
        { current with
          status := (statusObj.status.or current.status).toJSON
          is_paid := JSValue.bool statusObj.is_paid.truthy
          payment_date :=
            ((statusObj.payment_date.or current.payment_date).or (JSValue.str now)).toJSON
          updated_at := JSValue.str now })

/-! ## Webhook notifier -/

/-- The destination `WEBHOOKS.main`. -/
def WEBHOOKS.main : String :=
  "https://webhook.dev.mentoriadeceroalmillonia.com/webhook/fbb146f3-8ea7-4d6b-9661-8e8c83a1af0a"

/-- The destination `WEBHOOKS.upsell`. -/
def WEBHOOKS.upsell : String :=
  "https://webhook.dev.mentoriadeceroalmillonia.com/webhook/1d0b188a-6c32-4254-914b-e8d9617e513b"

/-- Whether `needle` occurs in the character sequence, as `includes` decides. -/
def includesChars (needle : List Char) : List Char → Bool
  | [] => needle.isEmpty
  | c :: cs => needle.isPrefixOf (c :: cs) || includesChars needle cs

/-- The method call `hay.includes(needle)`. -/
def jsIncludes (hay needle : String) : Bool := includesChars needle.data hay.data

/-- The message of the `TypeError` raised when `toLowerCase` is called on a
value that is not a string. -/
def notAFunction : String :=
  "(payment.product_type || \"\").toLowerCase is not a function"

/-- The function `resolvePurchaseWebhook(payment)`; `Except.error` carries the
message of the exception it raises. -/
def resolvePurchaseWebhook (rt : JSRuntime) (payment : PaymentRecord) : Except String String :=
  match payment.product_type.or (JSValue.str "") with
  | JSValue.str s =>
    let type := rt.toLowerCase s
    if type = "upsell" then Except.ok WEBHOOKS.upsell
    else if type = "main" then Except.ok WEBHOOKS.main
    else
      let p := rt.toLowerCase ((payment.product.or (JSValue.str "")).toStr rt)
      if jsIncludes p "upsell" then Except.ok WEBHOOKS.upsell
      else Except.ok WEBHOOKS.main
  | _ => Except.error notAFunction

/-- A response that `axios.post` resolves with. -/
structure HttpResponse where
  status : Nat
  body : String
  deriving DecidableEq

/-- What one `axios.post` does: it resolves with a response or rejects with an
error (time-out, network fault, status outside 2xx). -/
inductive PostOutcome
  | resolved (response : HttpResponse)
  | rejected (errorMessage : String)
  deriving DecidableEq

/-- One run of `postWithRetry`: the response returned or the value thrown
(`none` is `undefined`, the initial `lastErr`), the number of POST requests
made and the delays waited, in milliseconds and in order. -/
structure RetryRun where
  result : Except (Option String) HttpResponse
  posts : Nat
  waits : List Nat

/-- The loop of `postWithRetry` from index `i`, with `remaining = retries - i`
iterations left. -/
def postWithRetryFrom (post : Nat → PostOutcome) :
    (remaining : Nat) → (i : Nat) → (lastErr : Option String) → RetryRun
  | 0, _, lastErr => { result := Except.error lastErr, posts := 0, waits := [] }
  | remaining + 1, i, _ =>
    match post i with
    | PostOutcome.resolved response => { result := Except.ok response, posts := 1, waits := [] }
    | PostOutcome.rejected e =>
      let rest := postWithRetryFrom post remaining (i + 1) (some e)
      { result := rest.result, posts := rest.posts + 1, waits := 500 * (i + 1) :: rest.waits }

/-- The function `postWithRetry(url, data, headers, retries)`. -/
def postWithRetry (post : Nat → PostOutcome) (retries : Nat) : RetryRun :=
  postWithRetryFrom post retries 0 none

/-- The value `notifyPurchaseWebhookOnce` resolves with: `skipped` is
`{ skipped: true, reason }`, `ok` is `{ ok: true }`, `failed` is
`{ ok: false, error }`; `raised` is a rejection of the call. -/
inductive NotifyResult
  | skipped (reason : String)
  | ok
  | failed (error : String)
  | raised (errorMessage : String)
  deriving DecidableEq

/-- One run of `notifyPurchaseWebhookOnce`: its result, the store file it
leaves, the destination of each POST request made, the number of requests
that were delivered, and the delays waited. -/
structure NotifyRun where
  result : NotifyResult
  file : StoreFile
  posts : List String
  deliveries : Nat
  waits : List Nat

/-- A run that makes no request and leaves the store as it is. -/
def NotifyRun.quiet (result : NotifyResult) (file : StoreFile) : NotifyRun where
  result := result
  file := file
  posts := []
  deliveries := 0
  waits := []

/-- The function `notifyPurchaseWebhookOnce(paymentId)`. -/
def notifyPurchaseWebhookOnce (rt : JSRuntime) (now : String) (file : StoreFile)
    (paymentId : String) (post : Nat → PostOutcome) : NotifyRun :=
  match file with
  | StoreFile.missing => NotifyRun.quiet (NotifyResult.skipped "storage_missing") file
  | StoreFile.unreadable e => NotifyRun.quiet (NotifyResult.failed e) file
  | StoreFile.present payments =>
    match payments.read paymentId with
    | none => NotifyRun.quiet (NotifyResult.skipped "payment_not_found") file
    | some payment =>
      if payment.webhook_notified.truthy then
        NotifyRun.quiet (NotifyResult.skipped "already_notified") file
      else if !(payment.status = JSValue.str "paid" || payment.is_paid.truthy) then
        NotifyRun.quiet (NotifyResult.skipped "not_paid") file
      else
        match resolvePurchaseWebhook rt payment with
        | Except.error e => NotifyRun.quiet (NotifyResult.failed e) file
        | Except.ok DEST_URL =>
          if DEST_URL = "" then NotifyRun.quiet (NotifyResult.skipped "no_destination") file
          else
            let run := postWithRetry post 3
            match run.result with
            | Except.ok _ =>
              { result := NotifyResult.ok
                file := StoreFile.present (payments.set paymentId
                  { payment with
                    webhook_notified := JSValue.bool true
                    webhook_notified_at := JSValue.str now })
                posts := List.replicate run.posts DEST_URL
                deliveries := 1
                waits := run.waits }
            | Except.error (some e) =>
              { result := NotifyResult.failed e
                file := file
                posts := List.replicate run.posts DEST_URL
                deliveries := 0
                waits := run.waits }
            | Except.error none =>
              { result := NotifyResult.raised "Cannot read properties of undefined"
                file := file
                posts := List.replicate run.posts DEST_URL
                deliveries := 0
                waits := run.waits }

/-! ## Status endpoint -/

/-- The JSON body the status endpoint answers with. -/
structure StatusResponse where
  success : JSValue
  payment_id : String
  status : JSValue
  is_paid : Bool
  payment_date : JSValue
  amount : JSValue
  updated_at : String
  deriving DecidableEq

/-- One handling of `GET /api/payment-status/:paymentId`: the store file it
leaves, the run of the notifier when it was called, and the response body
(`none` is the status 500 answer of the handler's `catch`). -/
structure EndpointRun where
  file : StoreFile
  notify : Option NotifyRun
  response : Option StatusResponse

/-- The handler of `GET /api/payment-status/:paymentId`, for a provider that
answers the status query with `reply`. -/
def paymentStatusEndpoint (rt : JSRuntime) (now : String) (file : StoreFile)
    (paymentId : String) (reply : ProviderReply) (post : Nat → PostOutcome) : EndpointRun :=
  let statusResult := checkQRSimpleStatus rt (JSValue.str paymentId) reply
  let response : StatusResponse :=
    { success := statusResult.success
      payment_id := paymentId
      status := statusResult.status.or (JSValue.str "pending")
      is_paid := statusResult.is_paid.truthy
      payment_date := statusResult.payment_date.or JSValue.null
      amount := statusResult.amount.or JSValue.null
      updated_at := now }
  if statusResult.success.truthy &&
      (statusResult.is_paid.truthy || statusResult.status = JSValue.str "paid") then
    let run := notifyPurchaseWebhookOnce rt now
      (updateStoredPaymentStatus now file paymentId statusResult) paymentId post
    match run.result with
    | NotifyResult.raised _ => { file := run.file, notify := some run, response := none }
    | _ => { file := run.file, notify := some run, response := some response }
  else
    { file := file, notify := none, response := some response }

/-! ## QR payment service -/

/-- The body of a `getQRWithImageAsync` response, `response.data`. -/
structure CreateData where
  success : JSValue
  message : JSValue
  qrId : JSValue
  id : JSValue
  qr : JSValue
  qrImage : JSValue
  qrContent : JSValue
  deriving DecidableEq

/-- What `apiClient.post(.../getQRWithImageAsync)` does: it rejects with an
error, of which the `catch` of `createQRSimplePayment` reports `details` and
`code`, or resolves with a response body. -/
inductive CreateReply
  | rejected (details : String) (code : Nat)
  | data (d : CreateData)
  deriving DecidableEq

/-- The argument of `createQRSimplePayment`: the fields the handler passes on
once the `customer` object has passed its validation. -/
structure PaymentData where
  customer : Customer
  amount : JSValue
  extras : JSValue
  product : JSValue
  product_type : JSValue
  deriving DecidableEq

/-- The values `createQRSimplePayment` draws from the clock and the random
generator: `generateTransactionId()`, `getExpirationDate()` and
`new Date().toISOString()`. -/
structure CreateContext where
  transactionId : String
  expirationDate : String
  now : String
  deriving DecidableEq

/-- The request body `qrPayload`; `amount` is the number whose `toFixed(2)`
rendering is sent. -/
structure QrPayload where
  currency : String
  gloss : String
  amount : JSNum
  singleUse : Bool
  expirationDate : String
  deriving DecidableEq

/-- The object `createQRSimplePayment` returns: the payment result, or
`{ success: false, error, details, code }`. -/
inductive CreateResult
  | success (paymentResult : PaymentRecord)
  | failure (error : String) (details : String) (code : Nat)
  deriving DecidableEq

/-- One run of `createQRSimplePayment`: its result, the store file it leaves,
the creation requests sent to the provider and the number of status checks
made. -/
structure CreateRun where
  result : CreateResult
  file : StoreFile
  requests : List QrPayload
  statusChecks : Nat
  deriving DecidableEq

/-- The expression
``qrPng?.startsWith('data:image') ? qrPng : `data:image/png;base64,${qrPng || ''}` ``;
`none` when the call of `startsWith` raises a `TypeError`. -/
def qrCodeImage (qrPng : JSValue) : Option String :=
  match qrPng with
  | JSValue.undefined => some "data:image/png;base64,"
  | JSValue.null => some "data:image/png;base64,"
  | JSValue.str s =>
    if "data:image".data.isPrefixOf s.data then some s else some ("data:image/png;base64," ++ s)
  | _ => none

/-- The function `createQRSimplePayment(paymentData)` run against a provider
that answers the creation request with `reply`.  The status check made right
after the record is stored only feeds the log. -/
def createQRSimplePayment (rt : JSRuntime) (ctx : CreateContext) (file : StoreFile)
    (paymentData : PaymentData) (reply : CreateReply) : CreateRun :=
  let amountBOB := paymentData.amount.toNumber rt
  let qrPayload : QrPayload :=
    { currency := "BOB"
      gloss := "Mentoría - " ++ paymentData.customer.name.toStr rt
      amount := amountBOB
      singleUse := true
      expirationDate := ctx.expirationDate }
  let failed (details : String) (code : Nat) : CreateRun :=
    { result := CreateResult.failure "Erro ao criar QR code de pagamento" details code
      file := file
      requests := [qrPayload]
      statusChecks := 0 }
  match reply with
  | CreateReply.rejected details code => failed details code
  | CreateReply.data data =>
    if data.success.truthy then
      let qrId := data.qrId.or data.id
      let qrPng := (data.qr.or data.qrImage).or data.qrContent
      match qrCodeImage qrPng with
      | none => failed "qrPng?.startsWith is not a function" 500
      | some image =>
        let paymentResult : PaymentRecord :=
          { success := JSValue.bool true
            transaction_id := JSValue.str ctx.transactionId
            payment_id := qrId
            qr_id := qrId
            qr_code_image := JSValue.str image
            qr_code_text := JSValue.null
            amount_bob := JSValue.num amountBOB
            amount := JSValue.undefined
            currency := JSValue.str "BOB"
            expires_at := JSValue.str qrPayload.expirationDate
            status := JSValue.str "pending"
            is_paid := JSValue.undefined
            customer := some paymentData.customer
            extras := paymentData.extras.or (JSValue.obj "")
            product := paymentData.product.or (JSValue.str "Mentoría de Cero al Millón")
            product_type := paymentData.product_type.or (JSValue.str "main")
            created_at := JSValue.str ctx.now
            updated_at := JSValue.undefined
            payment_date := JSValue.undefined
            gloss := JSValue.str qrPayload.gloss
            webhook_notified := JSValue.undefined
            webhook_notified_at := JSValue.undefined
            provider_status_code := JSValue.undefined
            provider_qr_id := JSValue.undefined
            voucher_id := JSValue.undefined }
        { result := CreateResult.success paymentResult
          file := storePaymentData rt file paymentResult
          requests := [qrPayload]
          statusChecks := 1 }
    else
      failed ((data.message.or (JSValue.str "Erro ao criar QR code")).toStr rt) 500

/-! ## Creation endpoint -/

/-- The body of a `POST /api/create-payment` request; `customer` is `none`
when the field is absent or is not an object. -/
structure CreatePaymentBody where
  customer : Option Customer
  amount : JSValue
  extras : JSValue
  product : JSValue
  product_type : JSValue
  deriving DecidableEq

/-- The comparison `x <= 0` on a number: false on `NaN`. -/
def JSNum.leZero : JSNum → Bool
  | JSNum.nan => false
  | JSNum.posInf => false
  | JSNum.negInf => true
  | JSNum.fin q => decide (q ≤ 0)

/-- One handling of `POST /api/create-payment`: the HTTP status answered, the
error text of a status 400 answer, the run of `createQRSimplePayment` when it
was called, and the store file left. -/
structure CreateEndpointRun where
  status : Nat
  error : Option String
  created : Option CreateRun
  file : StoreFile
  deriving DecidableEq

/-- The handler of `POST /api/create-payment`. -/
def createPaymentEndpoint (rt : JSRuntime) (ctx : CreateContext) (file : StoreFile)
    (body : CreatePaymentBody) (reply : CreateReply) : CreateEndpointRun :=
  let missing : CreateEndpointRun :=
    { status := 400
      error := some "Dados obrigatórios: customer (name, email), amount"
      created := none
      file := file }
  match body.customer with
  | none => missing
  | some customer =>
    if !customer.name.truthy || !customer.email.truthy || !body.amount.truthy then missing
    else if (body.amount.toNumber rt).leZero then
      { status := 400
        error := some "O valor deve ser maior que zero"
        created := none
        file := file }
    else
      let run := createQRSimplePayment rt ctx file
        { customer := customer
          amount := body.amount
          extras := body.extras
          product := body.product
          product_type := body.product_type } reply
      match run.result with
      | CreateResult.success _ =>
        { status := 200, error := none, created := some run, file := run.file }
      | CreateResult.failure _ _ _ =>
        { status := 500, error := none, created := some run, file := run.file }

/-! ## Purchase payload -/

/-- The `meta` block of the purchase event. -/
structure PayloadMeta where
  transaction_id : JSValue
  gloss : JSValue
  provider_status_code : JSValue
  provider_qr_id : JSValue
  voucher_id : JSValue
  created_at : JSValue
  updated_at : String
  deriving DecidableEq

/-- The purchase event built by `buildPurchasePayload`. -/
structure PurchasePayload where
  event : String
  version : String
  provider : String
  payment_id : JSValue
  status : String
  currency : JSValue
  amount_bob : JSNum
  paid_at : JSValue
  product : JSValue
  product_type : JSValue
  customer : Customer
  extras : JSValue
  meta : PayloadMeta
  deriving DecidableEq

/-- The function `buildPurchasePayload(paymentObj)`. -/
def buildPurchasePayload (rt : JSRuntime) (now : String) (paymentObj : PaymentRecord) :
    PurchasePayload where
  event := "purchase.completed"
  version := "1.0"
  provider := "BNB-QR-Simple"
  payment_id := (paymentObj.payment_id.or paymentObj.qr_id).or JSValue.null
  status := "paid"
  currency := paymentObj.currency.or (JSValue.str "BOB")
  amount_bob :=
    ((paymentObj.amount_bob.or paymentObj.amount).or (JSValue.num (JSNum.fin 0))).toNumber rt
  paid_at := paymentObj.payment_date.or (JSValue.str now)
  product := paymentObj.product.or (JSValue.str "Mentoría de Cero al Millón")
  product_type := paymentObj.product_type.or (JSValue.str "main")
  customer :=
    match paymentObj.customer with
    | none => { name := JSValue.null, email := JSValue.null, phone := JSValue.null }
    | some c =>
      { name := c.name.or JSValue.null
        email := c.email.or JSValue.null
        phone := c.phone.or JSValue.null }
  extras := paymentObj.extras.or (JSValue.obj "")
  meta :=
    { transaction_id := paymentObj.transaction_id.or JSValue.null
      gloss := paymentObj.gloss.or JSValue.null
      provider_status_code := paymentObj.provider_status_code.or JSValue.null
      provider_qr_id := paymentObj.provider_qr_id.or JSValue.null
      voucher_id := paymentObj.voucher_id.or JSValue.null
      created_at := paymentObj.created_at.or JSValue.null
      updated_at := now }

/-- A later modification of the store: a call of `updateStoredPaymentStatus`
or of `notifyPurchaseWebhookOnce`. -/
inductive StoreOp
  | update (now : String) (paymentId : String) (statusObj : StatusResult)
  | notify (now : String) (paymentId : String) (post : Nat → PostOutcome)

/-- The store file an operation leaves. -/
def StoreOp.apply (rt : JSRuntime) (file : StoreFile) : StoreOp → StoreFile
  | StoreOp.update now paymentId statusObj =>
    updateStoredPaymentStatus now file paymentId statusObj
  | StoreOp.notify now paymentId post =>
    (notifyPurchaseWebhookOnce rt now file paymentId post).file

/-- The store file a sequence of operations leaves. -/
def applyOps (rt : JSRuntime) (file : StoreFile) (ops : List StoreOp) : StoreFile :=
  ops.foldl (StoreOp.apply rt) file

/-! ## Bank auth client -/

/-- The globals `accessToken` and `tokenExpiry`; the expiry is a time in
milliseconds since the epoch, `none` when it is `null`. -/
structure TokenCache where
  accessToken : JSValue
  tokenExpiry : Option Nat
  deriving DecidableEq

/-- The body of an `/auth/token` response. -/
structure AuthData where
  success : JSValue
  message : JSValue
  deriving DecidableEq

/-- What `authClient.post('/auth/token')` does: it rejects with an error or
resolves with a response body. -/
inductive AuthReply
  | rejected (errorMessage : String)
  | data (d : AuthData)
  deriving DecidableEq

/-- The function `authenticateWithBNB()` for a bank that answers `reply`;
`clock` is `Date.now()` when the answer is handled.  It leaves the cache and
returns the token or throws. -/
def authenticateWithBNB (rt : JSRuntime) (clock : Nat) (reply : AuthReply) :
    TokenCache × Except String JSValue :=
  match reply with
  | AuthReply.rejected e =>
    ({ accessToken := JSValue.null, tokenExpiry := none },
      Except.error ("Falha na autenticação: " ++ e))
  | AuthReply.data d =>
    if d.success.truthy then
      ({ accessToken := d.message, tokenExpiry := some (clock + (3600 - 300) * 1000) },
        Except.ok d.message)
    else
      ({ accessToken := JSValue.null, tokenExpiry := none },
        Except.error ("Falha na autenticação: " ++
          (d.message.or (JSValue.str "Falha na autenticação")).toStr rt))

/-- One run of `ensureValidToken`: the cache it leaves, the number of calls of
the authentication endpoint, and whether it returned or threw. -/
structure EnsureRun where
  cache : TokenCache
  authCalls : Nat
  result : Except String Unit
  deriving DecidableEq

/-- The function `ensureValidToken()` called at time `now` (milliseconds) on
the given cache; `reply` and `clock` are the answer of the bank and the time
of that answer if the bank is asked. -/
def ensureValidToken (rt : JSRuntime) (cache : TokenCache) (now : Nat) (reply : AuthReply)
    (clock : Nat) : EnsureRun :=
  let beforeExpiry : Bool :=
    match cache.tokenExpiry with
    | some tokenExpiry => decide (now < tokenExpiry)
    | none => false
  if cache.accessToken.truthy && beforeExpiry then
    { cache := cache, authCalls := 0, result := Except.ok () }
  else
    match authenticateWithBNB rt clock reply with
    | (after, Except.ok _) => { cache := after, authCalls := 1, result := Except.ok () }
    | (after, Except.error _) =>
      { cache := after
        authCalls := 1
        result := Except.error "Falha na autenticação com o banco" }

/-! ## Stores the program can leave -/

/-- The removal of an entry of `payments.json` by an external collaborator
that prunes the store. -/
def Payments.erase (payments : Payments) (paymentId : String) : Payments :=
  match payments with
  | [] => []
  | (k, r) :: rest =>
    if k = paymentId then Payments.erase rest paymentId
    else (k, r) :: Payments.erase rest paymentId

/-- The states of `payments.json` that the program can be in: the file is
absent, unreadable or an empty object to begin with, and it is then written
only by `createQRSimplePayment` (the one caller of `storePaymentData`), by the
status endpoint (the one caller of `updateStoredPaymentStatus` and of
`notifyPurchaseWebhookOnce`) and by the removal of entries. -/
inductive ReachableStore (rt : JSRuntime) : StoreFile → Prop
  | missing : ReachableStore rt StoreFile.missing
  | unreadable (e : String) : ReachableStore rt (StoreFile.unreadable e)
  | empty : ReachableStore rt (StoreFile.present [])
  | create (ctx : CreateContext) (file : StoreFile) (paymentData : PaymentData)
      (reply : CreateReply) :
      ReachableStore rt file →
      ReachableStore rt (createQRSimplePayment rt ctx file paymentData reply).file
  | poll (now : String) (file : StoreFile) (paymentId : String) (reply : ProviderReply)
      (post : Nat → PostOutcome) :
      ReachableStore rt file →
      ReachableStore rt (paymentStatusEndpoint rt now file paymentId reply post).file
  | prune (payments : Payments) (paymentId : String) :
      ReachableStore rt (StoreFile.present payments) →
      ReachableStore rt (StoreFile.present (payments.erase paymentId))

/-- A record on which `is_paid` and `webhook_notified` are set only together
with the status `paid`. -/
def PaymentRecord.consistent (r : PaymentRecord) : Prop :=
  (r.is_paid.truthy = true → r.status = JSValue.str "paid") ∧
  (r.webhook_notified.truthy = true → r.status = JSValue.str "paid")

/-- A store of which every record read is consistent. -/
def Payments.consistent (payments : Payments) : Prop :=
  ∀ paymentId r, payments.read paymentId = some r → r.consistent

/-- A store file whose records, if it holds any, are consistent. -/
def StoreFile.consistent : StoreFile → Prop
  | StoreFile.present payments => payments.consistent
  | _ => True

/-! ## Specification-side definitions -/

/-- The status table of the specification for a provider code that is a
number: `2` is paid, `3` expired, `4` error, anything else pending. -/
def numericMapping (n : JSNum) : JSValue × JSValue :=
  if n = JSNum.fin 2 then (JSValue.str "paid", JSValue.bool true)
  else if n = JSNum.fin 3 then (JSValue.str "expired", JSValue.bool false)
  else if n = JSNum.fin 4 then (JSValue.str "error", JSValue.bool false)
  else (JSValue.str "pending", JSValue.bool false)

/-- The status table of the specification for an upper-cased provider token:
`USED` and `PAID` are paid, `EXPIRED` expired, `ERROR` error, anything else
pending. -/
def tokenMapping (sc : String) : JSValue × JSValue :=
  if sc = "USED" ∨ sc = "PAID" then (JSValue.str "paid", JSValue.bool true)
  else if sc = "EXPIRED" then (JSValue.str "expired", JSValue.bool false)
  else if sc = "ERROR" then (JSValue.str "error", JSValue.bool false)
  else (JSValue.str "pending", JSValue.bool false)

/-- The first value of a list that is neither `undefined` nor `null`, and
`null` when there is none. -/
def firstPresent : List JSValue → JSValue
  | [] => JSValue.null
  | JSValue.undefined :: rest => firstPresent rest
  | JSValue.null :: rest => firstPresent rest
  | v :: _ => v

/-! ## Sample data -/

/-- A response body with no field set. -/
def StatusData.empty : StatusData where
  success := JSValue.undefined
  message := JSValue.undefined
  statusId := JSValue.undefined
  qrId := JSValue.undefined
  qrStatus := JSValue.undefined
  status := JSValue.undefined
  expirationDate := JSValue.undefined
  id := JSValue.undefined
  voucherId := JSValue.undefined

/-- A record as `createQRSimplePayment` stores it: pending, product type
`main`, no payment or notification field yet. -/
def PaymentRecord.sample : PaymentRecord where
  success := JSValue.bool true
  transaction_id := JSValue.str "MENT_1_a"
  payment_id := JSValue.str "q1"
  qr_id := JSValue.str "q1"
  qr_code_image := JSValue.str "data:image/png;base64,AA"
  qr_code_text := JSValue.null
  amount_bob := JSValue.num (JSNum.fin 100)
  amount := JSValue.undefined
  currency := JSValue.str "BOB"
  expires_at := JSValue.str "2025-01-02"
  status := JSValue.str "pending"
  is_paid := JSValue.undefined
  customer := some { name := JSValue.str "Ana", email := JSValue.str "a@x.com",
                     phone := JSValue.undefined }
  extras := JSValue.obj ""
  product := JSValue.str "Curso"
  product_type := JSValue.str "main"
  created_at := JSValue.str "2025-01-01T00:00:00.000Z"
  updated_at := JSValue.undefined
  payment_date := JSValue.undefined
  gloss := JSValue.str "Curso - Ana"
  webhook_notified := JSValue.undefined
  webhook_notified_at := JSValue.undefined
  provider_status_code := JSValue.undefined
  provider_qr_id := JSValue.undefined
  voucher_id := JSValue.undefined

/-- A store file holding the sample record, paid and not yet notified. -/
def StoreFile.samplePaid : StoreFile :=
  StoreFile.present [("q1", { PaymentRecord.sample with status := JSValue.str "paid" })]

/-- Requests that all time out. -/
def allRejected : Nat → PostOutcome := fun _ => PostOutcome.rejected "timeout"

/-- Requests that are all answered with status 200. -/
def allResolved : Nat → PostOutcome :=
  fun _ => PostOutcome.resolved { status := 200, body := "" }

/-- A creation request body that passes the validation of the handler. -/
def CreatePaymentBody.sample : CreatePaymentBody where
  customer := some { name := JSValue.str "Ana", email := JSValue.str "a@x.com",
                     phone := JSValue.undefined }
  amount := JSValue.num (JSNum.fin 100)
  extras := JSValue.undefined
  product := JSValue.undefined
  product_type := JSValue.str "main"

/-- The clock and random values of a creation. -/
def CreateContext.sample : CreateContext where
  transactionId := "MENT_1_a"
  expirationDate := "2025-01-02"
  now := "2025-01-01T00:00:00.000Z"

/-- A provider answer that issues the QR `q1`. -/
def CreateReply.sample : CreateReply :=
  CreateReply.data
    { success := JSValue.bool true
      message := JSValue.undefined
      qrId := JSValue.str "q1"
      id := JSValue.undefined
      qr := JSValue.str "AA"
      qrImage := JSValue.undefined
      qrContent := JSValue.undefined }

/-- A bank answer that issues the token `tok`. -/
def AuthReply.sample : AuthReply :=
  AuthReply.data { success := JSValue.bool true, message := JSValue.str "tok" }

/-- The argument the handler passes to `createQRSimplePayment` for the sample
body. -/
def PaymentData.sample : PaymentData where
  customer := { name := JSValue.str "Ana", email := JSValue.str "a@x.com",
                phone := JSValue.undefined }
  amount := JSValue.num (JSNum.fin 100)
  extras := JSValue.undefined
  product := JSValue.undefined
  product_type := JSValue.str "main"

/-- The record `createQRSimplePayment` builds from the sample data. -/
def PaymentRecord.created : PaymentRecord :=
  { PaymentRecord.sample with
    product := JSValue.str "Mentoría de Cero al Millón"
    gloss := JSValue.str "Mentoría - Ana" }

/-! ## Theorems -/

theorem statusCodeRaw_eq_firstPresent (data : StatusData) :
    statusCodeRaw data = firstPresent [data.statusId, data.qrId, data.qrStatus, data.status] := by
  obtain ⟨_, _, a, b, c, d, _, _, _⟩ := data
  cases a <;> cases b <;> cases c <;> cases d <;> rfl

theorem checkQRSimpleStatus_data (rt : JSRuntime) (qrId : JSValue) (data : StatusData)
    (hs : data.success ≠ JSValue.bool false) :
    ((checkQRSimpleStatus rt qrId (ProviderReply.data data)).status,
      (checkQRSimpleStatus rt qrId (ProviderReply.data data)).is_paid) =
      (JSValue.str (normaliseStatus rt (statusCodeRaw data)).1,
        JSValue.bool (normaliseStatus rt (statusCodeRaw data)).2) := by
  simp [checkQRSimpleStatus, hs]

/-- C1: for a response that is not a provider failure, the status and
`is_paid` returned by `checkQRSimpleStatus` follow the numeric table whenever
`Number(v)` of the extracted raw value `v` is a number `n` (2 paid, 3 expired,
4 error, any other pending), and otherwise the token table applied to
`String(v || '').toUpperCase()`, where `v || ''` is `v` itself for every
truthy `v`. -/
theorem checkQRSimpleStatus_numeric_first (rt : JSRuntime) (qrId : JSValue) (data : StatusData)
    (hs : data.success ≠ JSValue.bool false) :
    (∀ n : JSNum, (statusCodeRaw data).toNumber rt = n → n ≠ JSNum.nan →
      ((checkQRSimpleStatus rt qrId (ProviderReply.data data)).status,
        (checkQRSimpleStatus rt qrId (ProviderReply.data data)).is_paid) = numericMapping n) ∧
    ((statusCodeRaw data).toNumber rt = JSNum.nan →
      ((checkQRSimpleStatus rt qrId (ProviderReply.data data)).status,
        (checkQRSimpleStatus rt qrId (ProviderReply.data data)).is_paid) =
        tokenMapping (rt.toUpperCase
          (((statusCodeRaw data).or (JSValue.str "")).toStr rt))) ∧
    ((statusCodeRaw data).truthy = true →
      (statusCodeRaw data).or (JSValue.str "") = statusCodeRaw data) := by
  refine ⟨?_, ?_, ?_⟩
  · intro n hn hnan
    rw [checkQRSimpleStatus_data rt qrId data hs]
    subst hn
    simp only [normaliseStatus, numericMapping, if_pos hnan]
    split_ifs <;> rfl
  · intro hnan
    rw [checkQRSimpleStatus_data rt qrId data hs]
    simp only [normaliseStatus, tokenMapping, hnan, ne_eq, not_true_eq_false, if_false]
    split_ifs <;> rfl
  · intro ht
    simp [JSValue.or, ht]

/-- Witness of C1: a response carrying `statusId: 3` is reported expired and
not paid. -/
theorem checkQRSimpleStatus_numeric_first_witness :
    ({ StatusData.empty with statusId := JSValue.num (JSNum.fin 3) } : StatusData).success
        ≠ JSValue.bool false ∧
    ((checkQRSimpleStatus refRuntime (JSValue.str "q1") (ProviderReply.data
        { StatusData.empty with statusId := JSValue.num (JSNum.fin 3) })).status,
      (checkQRSimpleStatus refRuntime (JSValue.str "q1") (ProviderReply.data
        { StatusData.empty with statusId := JSValue.num (JSNum.fin 3) })).is_paid) =
      (JSValue.str "expired", JSValue.bool false) :=
  ⟨by decide,
   ((checkQRSimpleStatus_numeric_first refRuntime (JSValue.str "q1")
      { StatusData.empty with statusId := JSValue.num (JSNum.fin 3) } (by decide)).1
      (JSNum.fin 3) rfl (by decide)).trans (by decide)⟩

/-- Counterexample to C2: a response whose only field is `qrId: 2` has no
`statusId`, `qrStatus` or `status`, so the first present of those three is
`null`, yet it is reported paid, while the same response without `qrId` is
reported pending. -/
theorem checkQRSimpleStatus_qrId_counterexample :
    firstPresent
      [({ StatusData.empty with qrId := JSValue.num (JSNum.fin 2) } : StatusData).statusId,
       ({ StatusData.empty with qrId := JSValue.num (JSNum.fin 2) } : StatusData).qrStatus,
       ({ StatusData.empty with qrId := JSValue.num (JSNum.fin 2) } : StatusData).status]
      = JSValue.null ∧
    (checkQRSimpleStatus refRuntime (JSValue.str "q1") (ProviderReply.data
      { StatusData.empty with qrId := JSValue.num (JSNum.fin 2) })).status
      = JSValue.str "paid" ∧
    (checkQRSimpleStatus refRuntime (JSValue.str "q1") (ProviderReply.data
      { StatusData.empty with qrId := JSValue.num (JSNum.fin 2) })).is_paid
      = JSValue.bool true ∧
    (checkQRSimpleStatus refRuntime (JSValue.str "q1")
      (ProviderReply.data StatusData.empty)).status = JSValue.str "pending" ∧
    (checkQRSimpleStatus refRuntime (JSValue.str "q1")
      (ProviderReply.data StatusData.empty)).is_paid = JSValue.bool false := by
  decide

/-- C2, amended: the raw status indicator that `checkQRSimpleStatus`
normalises is the first present (neither `undefined` nor `null`) of the
response fields `statusId`, `qrId`, `qrStatus` and `status`, in that order,
and two responses that agree on `success` and on those four fields get the
same status and `is_paid`, whatever their other fields hold. -/
theorem checkQRSimpleStatus_raw_indicator (rt : JSRuntime) (qrId : JSValue) (data : StatusData) :
    (data.success ≠ JSValue.bool false →
      ((checkQRSimpleStatus rt qrId (ProviderReply.data data)).status,
        (checkQRSimpleStatus rt qrId (ProviderReply.data data)).is_paid) =
        (JSValue.str (normaliseStatus rt
            (firstPresent [data.statusId, data.qrId, data.qrStatus, data.status])).1,
          JSValue.bool (normaliseStatus rt
            (firstPresent [data.statusId, data.qrId, data.qrStatus, data.status])).2)) ∧
    (∀ other : StatusData, other.success = data.success → other.statusId = data.statusId →
      other.qrId = data.qrId → other.qrStatus = data.qrStatus → other.status = data.status →
      (checkQRSimpleStatus rt qrId (ProviderReply.data other)).status =
        (checkQRSimpleStatus rt qrId (ProviderReply.data data)).status ∧
      (checkQRSimpleStatus rt qrId (ProviderReply.data other)).is_paid =
        (checkQRSimpleStatus rt qrId (ProviderReply.data data)).is_paid) := by
  refine ⟨?_, ?_⟩
  · intro hs
    rw [checkQRSimpleStatus_data rt qrId data hs, statusCodeRaw_eq_firstPresent]
  · intro other h0 h1 h2 h3 h4
    have hraw : statusCodeRaw other = statusCodeRaw data := by
      simp [statusCodeRaw, h1, h2, h3, h4]
    by_cases hs : data.success = JSValue.bool false
    · simp [checkQRSimpleStatus, h0, hs]
    · simp [checkQRSimpleStatus, h0, hs, hraw]

/-- Witness of C2, amended: `qrStatus: 3` is the indicator of a response
without `statusId` and `qrId`, and the fields `id` and `voucherId` do not
change the verdict. -/
theorem checkQRSimpleStatus_raw_indicator_witness :
    ({ StatusData.empty with qrStatus := JSValue.num (JSNum.fin 3) } : StatusData).success
        ≠ JSValue.bool false ∧
    (checkQRSimpleStatus refRuntime (JSValue.str "q1") (ProviderReply.data
      { StatusData.empty with
        qrStatus := JSValue.num (JSNum.fin 3)
        id := JSValue.num (JSNum.fin 2)
        voucherId := JSValue.str "PAID" })).status =
    (checkQRSimpleStatus refRuntime (JSValue.str "q1") (ProviderReply.data
      { StatusData.empty with qrStatus := JSValue.num (JSNum.fin 3) })).status :=
  ⟨by decide,
   ((checkQRSimpleStatus_raw_indicator refRuntime (JSValue.str "q1")
      { StatusData.empty with qrStatus := JSValue.num (JSNum.fin 3) }).2
      { StatusData.empty with
        qrStatus := JSValue.num (JSNum.fin 3)
        id := JSValue.num (JSNum.fin 2)
        voucherId := JSValue.str "PAID" } rfl rfl rfl rfl rfl).1⟩

/-- C7: `postWithRetry` with `retries = 3` makes at most 3 POST requests, one
after another; it returns the response of the first request that succeeds and
makes none after it; when all three fail it throws the error of the third;
and it waits 500, 1000 and 1500 ms after the first, second and third failure,
3000 ms in total when all fail. -/
theorem postWithRetry_three_attempts (post : Nat → PostOutcome) :
    (postWithRetry post 3).posts ≤ 3 ∧
    (∀ r, post 0 = PostOutcome.resolved r →
      (postWithRetry post 3).result = Except.ok r ∧ (postWithRetry post 3).posts = 1 ∧
      (postWithRetry post 3).waits = []) ∧
    (∀ e0 r, post 0 = PostOutcome.rejected e0 → post 1 = PostOutcome.resolved r →
      (postWithRetry post 3).result = Except.ok r ∧ (postWithRetry post 3).posts = 2 ∧
      (postWithRetry post 3).waits = [500 * 1]) ∧
    (∀ e0 e1 r, post 0 = PostOutcome.rejected e0 → post 1 = PostOutcome.rejected e1 →
      post 2 = PostOutcome.resolved r →
      (postWithRetry post 3).result = Except.ok r ∧ (postWithRetry post 3).posts = 3 ∧
      (postWithRetry post 3).waits = [500 * 1, 500 * 2]) ∧
    (∀ e0 e1 e2, post 0 = PostOutcome.rejected e0 → post 1 = PostOutcome.rejected e1 →
      post 2 = PostOutcome.rejected e2 →
      (postWithRetry post 3).result = Except.error (some e2) ∧
      (postWithRetry post 3).posts = 3 ∧
      (postWithRetry post 3).waits = [500 * 1, 500 * 2, 500 * 3] ∧
      (postWithRetry post 3).waits.sum = 3000) := by
  refine ⟨?_, ?_, ?_, ?_, ?_⟩
  · cases h0 : post 0 <;> cases h1 : post 1 <;> cases h2 : post 2 <;>
      simp [postWithRetry, postWithRetryFrom, h0, h1, h2]
  · intro r h0
    simp [postWithRetry, postWithRetryFrom, h0]
  · intro e0 r h0 h1
    simp [postWithRetry, postWithRetryFrom, h0, h1]
  · intro e0 e1 r h0 h1 h2
    simp [postWithRetry, postWithRetryFrom, h0, h1, h2]
  · intro e0 e1 e2 h0 h1 h2
    simp [postWithRetry, postWithRetryFrom, h0, h1, h2]

/-- Witness of C7: a first request that times out followed by one that is
answered takes two requests and one wait of 500 ms. -/
theorem postWithRetry_three_attempts_witness :
    (postWithRetry (fun i => if i = 0 then PostOutcome.rejected "timeout"
        else PostOutcome.resolved { status := 200, body := "" }) 3).result
      = Except.ok { status := 200, body := "" } ∧
    (postWithRetry (fun i => if i = 0 then PostOutcome.rejected "timeout"
        else PostOutcome.resolved { status := 200, body := "" }) 3).posts = 2 ∧
    (postWithRetry (fun i => if i = 0 then PostOutcome.rejected "timeout"
        else PostOutcome.resolved { status := 200, body := "" }) 3).waits = [500 * 1] :=
  (postWithRetry_three_attempts (fun i => if i = 0 then PostOutcome.rejected "timeout"
      else PostOutcome.resolved { status := 200, body := "" })).2.2.1
    "timeout" { status := 200, body := "" } rfl rfl

theorem or_empty_of_str (s : String) :
    (JSValue.str s).or (JSValue.str "") = JSValue.str s := by
  by_cases h : s = ""
  · subst h
    simp [JSValue.or]
  · simp [JSValue.or, JSValue.truthy, h]

/-- C8: when `product_type` is a string that lower-cases to `upsell` the
upsell destination is returned, and when it lower-cases to `main` the main
destination is returned, whatever the product name is. -/
theorem resolvePurchaseWebhook_explicit_type (rt : JSRuntime) (payment : PaymentRecord)
    (s : String) (hs : payment.product_type = JSValue.str s) :
    (rt.toLowerCase s = "upsell" →
      resolvePurchaseWebhook rt payment = Except.ok WEBHOOKS.upsell) ∧
    (rt.toLowerCase s = "main" →
      resolvePurchaseWebhook rt payment = Except.ok WEBHOOKS.main) := by
  refine ⟨?_, ?_⟩
  · intro h
    simp [resolvePurchaseWebhook, hs, or_empty_of_str, h]
  · intro h
    simp [resolvePurchaseWebhook, hs, or_empty_of_str, h]

/-- Witness of C8: product type `MAIN` with a product name that contains
`upsell` goes to the main destination. -/
theorem resolvePurchaseWebhook_explicit_type_witness :
    ({ PaymentRecord.sample with
        product_type := JSValue.str "MAIN"
        product := JSValue.str "Upsell Pack" } : PaymentRecord).product_type
      = JSValue.str "MAIN" ∧
    refRuntime.toLowerCase "MAIN" = "main" ∧
    resolvePurchaseWebhook refRuntime
      { PaymentRecord.sample with
        product_type := JSValue.str "MAIN"
        product := JSValue.str "Upsell Pack" } = Except.ok WEBHOOKS.main :=
  ⟨rfl, by decide,
   (resolvePurchaseWebhook_explicit_type refRuntime
      { PaymentRecord.sample with
        product_type := JSValue.str "MAIN"
        product := JSValue.str "Upsell Pack" } "MAIN" rfl).2 (by decide)⟩

/-- Counterexample to C9: a record with the unrecognised product type `bundle`
and the product name `Upsell Pack` is routed to the upsell destination, and so
is a record without product type whose product name is `upsell`. -/
theorem resolvePurchaseWebhook_name_counterexample :
    resolvePurchaseWebhook refRuntime
      { PaymentRecord.sample with
        product_type := JSValue.str "bundle"
        product := JSValue.str "Upsell Pack" } = Except.ok WEBHOOKS.upsell ∧
    resolvePurchaseWebhook refRuntime
      { PaymentRecord.sample with
        product_type := JSValue.undefined
        product := JSValue.str "upsell" } = Except.ok WEBHOOKS.upsell ∧
    WEBHOOKS.upsell ≠ WEBHOOKS.main := by
  decide

/-- C9, amended: for a record whose `product_type` is a string or absent,
with `t` the lower-cased product type (the empty string when absent): `t =
main` gives the main destination whatever the product name; when `t` is
neither `upsell` nor `main`, the upsell destination is returned if the
lower-cased product name contains `upsell` and the main destination
otherwise. -/
theorem resolvePurchaseWebhook_fallback (rt : JSRuntime) (payment : PaymentRecord)
    (s : String) (hs : payment.product_type.or (JSValue.str "") = JSValue.str s) :
    (rt.toLowerCase s = "main" →
      resolvePurchaseWebhook rt payment = Except.ok WEBHOOKS.main) ∧
    (rt.toLowerCase s ≠ "upsell" → rt.toLowerCase s ≠ "main" →
      resolvePurchaseWebhook rt payment =
        if jsIncludes (rt.toLowerCase ((payment.product.or (JSValue.str "")).toStr rt)) "upsell"
        then Except.ok WEBHOOKS.upsell else Except.ok WEBHOOKS.main) := by
  refine ⟨?_, ?_⟩
  · intro h
    simp [resolvePurchaseWebhook, hs, h]
  · intro h1 h2
    simp only [resolvePurchaseWebhook, hs, if_neg h1, if_neg h2]

/-- Witness of C9, amended: an absent product type with the product name
`Curso` goes to the main destination. -/
theorem resolvePurchaseWebhook_fallback_witness :
    ({ PaymentRecord.sample with product_type := JSValue.undefined } : PaymentRecord).product_type.or
        (JSValue.str "") = JSValue.str "" ∧
    refRuntime.toLowerCase "" ≠ "upsell" ∧ refRuntime.toLowerCase "" ≠ "main" ∧
    resolvePurchaseWebhook refRuntime
      { PaymentRecord.sample with product_type := JSValue.undefined } = Except.ok WEBHOOKS.main :=
  ⟨rfl, by decide, by decide,
   ((resolvePurchaseWebhook_fallback refRuntime
      { PaymentRecord.sample with product_type := JSValue.undefined } "" rfl).2
      (by decide) (by decide)).trans (by decide)⟩

theorem Payments.get_set_same (payments : Payments) (paymentId : String)
    (record : PaymentRecord) (h : paymentId ≠ "__proto__" ∨ payments.get paymentId ≠ none) :
    (payments.set paymentId record).get paymentId = some record := by
  induction payments with
  | nil =>
    rcases h with h | h
    · simp [Payments.set, Payments.get, h]
    · simp [Payments.get] at h
  | cons kv rest ih =>
    obtain ⟨k, r⟩ := kv
    by_cases hk : k = paymentId
    · simp [Payments.set, Payments.get, hk]
    · by_cases hp : keyPrecedes paymentId k = true
      · simp [Payments.set, Payments.get, hk, hp]
      · have h2 : paymentId ≠ "__proto__" ∨ Payments.get rest paymentId ≠ none := by
          rcases h with h | h
          · exact Or.inl h
          · right
            simpa [Payments.get, hk] using h
        simp [Payments.set, Payments.get, hk, hp, ih h2]

theorem Payments.get_set_other (payments : Payments) (paymentId other : String)
    (record : PaymentRecord) (h : paymentId ≠ other) :
    (payments.set paymentId record).get other = payments.get other := by
  induction payments with
  | nil =>
    by_cases hp : paymentId = "__proto__"
    · simp [Payments.set, Payments.get, hp]
    · simp [Payments.set, Payments.get, hp, h]
  | cons kv rest ih =>
    obtain ⟨k, r⟩ := kv
    by_cases hk : k = paymentId
    · subst hk
      simp [Payments.set, Payments.get, h]
    · by_cases hp : keyPrecedes paymentId k = true
      · simp [Payments.set, Payments.get, hk, hp, h]
      · by_cases ho : k = other
        · subst ho
          simp [Payments.set, Payments.get, hk, hp]
        · simp [Payments.set, Payments.get, hk, hp, ho, ih]

/-- Writing `__proto__` on an object without such an own property adds no
property. -/
theorem Payments.set_proto (payments : Payments) (record : PaymentRecord)
    (h : payments.get "__proto__" = none) : payments.set "__proto__" record = payments := by
  induction payments with
  | nil => simp [Payments.set]
  | cons kv rest ih =>
    obtain ⟨k, r⟩ := kv
    by_cases hk : k = "__proto__"
    · simp [Payments.get, hk] at h
    · have hr : Payments.get rest "__proto__" = none := by
        simpa [Payments.get, hk] using h
      have hp : keyPrecedes "__proto__" k = false := by
        have : arrayIndex "__proto__" = none := by decide
        simp [keyPrecedes, this]
      simp [Payments.set, hk, hp, ih hr]

theorem Payments.read_of_get (payments : Payments) (paymentId : String)
    (record : PaymentRecord) (h : payments.get paymentId = some record) :
    payments.read paymentId = some record := by
  simp [Payments.read, h]

/-- A read finds an own property or, failing that, an inherited member. -/
theorem Payments.read_cases (payments : Payments) (paymentId : String) (record : PaymentRecord)
    (h : payments.read paymentId = some record) :
    payments.get paymentId = some record ∨
    (payments.get paymentId = none ∧ paymentId ∈ objectPrototypeNames ∧
      record = PaymentRecord.inherited) := by
  unfold Payments.read at h
  cases hg : payments.get paymentId with
  | some r =>
    rw [hg] at h
    exact Or.inl h
  | none =>
    rw [hg] at h
    right
    by_cases hm : paymentId ∈ objectPrototypeNames
    · simp only [hm, if_true, Option.some.injEq] at h
      exact ⟨rfl, hm, h.symm⟩
    · simp [hm] at h

theorem Payments.read_set_other (payments : Payments) (paymentId other : String)
    (record : PaymentRecord) (h : paymentId ≠ other) :
    (payments.set paymentId record).read other = payments.read other := by
  simp [Payments.read, Payments.get_set_other _ _ _ _ h]

theorem Payments.read_set_same (payments : Payments) (paymentId : String)
    (record : PaymentRecord) (h : paymentId ≠ "__proto__" ∨ payments.get paymentId ≠ none) :
    (payments.set paymentId record).read paymentId = some record := by
  simp [Payments.read, Payments.get_set_same _ _ _ h]

theorem postWithRetry_three_cases (post : Nat → PostOutcome) :
    (∃ r, (postWithRetry post 3).result = Except.ok r ∧ 1 ≤ (postWithRetry post 3).posts) ∨
    (∃ e0 e1 e2, post 0 = PostOutcome.rejected e0 ∧ post 1 = PostOutcome.rejected e1 ∧
      post 2 = PostOutcome.rejected e2 ∧
      (postWithRetry post 3).result = Except.error (some e2) ∧
      (postWithRetry post 3).posts = 3) := by
  cases h0 : post 0 <;> cases h1 : post 1 <;> cases h2 : post 2 <;>
    simp [postWithRetry, postWithRetryFrom, h0, h1, h2]

/-- The store file a run of the notifier leaves: the one it found, or the one
it found with the record of the payment id marked as notified, which happens
exactly when the result is `ok`. -/
theorem notifyPurchaseWebhookOnce_file (rt : JSRuntime) (now : String) (file : StoreFile)
    (paymentId : String) (post : Nat → PostOutcome) :
    ((notifyPurchaseWebhookOnce rt now file paymentId post).file = file ∧
      (notifyPurchaseWebhookOnce rt now file paymentId post).result ≠ NotifyResult.ok ∧
      (notifyPurchaseWebhookOnce rt now file paymentId post).deliveries = 0) ∨
    (∃ payments payment, file = StoreFile.present payments ∧
      payments.get paymentId = some payment ∧
      (notifyPurchaseWebhookOnce rt now file paymentId post).file =
        StoreFile.present (payments.set paymentId
          { payment with
            webhook_notified := JSValue.bool true
            webhook_notified_at := JSValue.str now }) ∧
      (notifyPurchaseWebhookOnce rt now file paymentId post).result = NotifyResult.ok ∧
      (notifyPurchaseWebhookOnce rt now file paymentId post).deliveries = 1 ∧
      (payment.status = JSValue.str "paid" ∨ payment.is_paid.truthy = true)) := by
  cases file with
  | missing => left; simp [notifyPurchaseWebhookOnce, NotifyRun.quiet]
  | unreadable e => left; simp [notifyPurchaseWebhookOnce, NotifyRun.quiet]
  | present payments =>
    cases hg : payments.read paymentId with
    | none => left; simp [notifyPurchaseWebhookOnce, NotifyRun.quiet, hg]
    | some payment =>
      by_cases hn : payment.webhook_notified.truthy = true
      · left; simp [notifyPurchaseWebhookOnce, NotifyRun.quiet, hg, hn]
      · by_cases hp : (payment.status = JSValue.str "paid" || payment.is_paid.truthy) = true
        · have hown : payments.get paymentId = some payment := by
            rcases Payments.read_cases payments paymentId payment hg with h | ⟨_, _, h⟩
            · exact h
            · subst h
              simp [PaymentRecord.inherited, JSValue.truthy] at hp
          cases hd : resolvePurchaseWebhook rt payment with
          | error e => left; simp [notifyPurchaseWebhookOnce, NotifyRun.quiet, hg, hn, hp, hd]
          | ok url =>
            by_cases hu : url = ""
            · left; simp [notifyPurchaseWebhookOnce, NotifyRun.quiet, hg, hn, hp, hd, hu]
            · cases hr : (postWithRetry post 3).result with
              | ok r =>
                right
                have hpaid : payment.status = JSValue.str "paid" ∨
                    payment.is_paid.truthy = true := by
                  simpa using hp
                refine ⟨payments, payment, rfl, hown, ?_, ?_, ?_, hpaid⟩ <;>
                  simp [notifyPurchaseWebhookOnce, hg, hn, hp, hd, hu, hr]
              | error e =>
                left
                cases e <;> simp [notifyPurchaseWebhookOnce, hg, hn, hp, hd, hu, hr]
        · left; simp [notifyPurchaseWebhookOnce, NotifyRun.quiet, hg, hn, hp]

theorem resolvePurchaseWebhook_ne_empty (rt : JSRuntime) (payment : PaymentRecord)
    (url : String) (h : resolvePurchaseWebhook rt payment = Except.ok url) : url ≠ "" := by
  have hm : WEBHOOKS.main ≠ "" := by decide
  have hu : WEBHOOKS.upsell ≠ "" := by decide
  unfold resolvePurchaseWebhook at h
  split at h
  · dsimp only at h
    split_ifs at h <;> cases h <;> assumption
  · cases h

/-- Counterexample to C3: on a paid, un-notified record, a first call whose
three requests time out is followed by a second call that delivers and returns
`ok`, not `skipped`. -/
theorem notifyPurchaseWebhookOnce_twice_counterexample :
    (notifyPurchaseWebhookOnce refRuntime "t1" StoreFile.samplePaid "q1" allRejected).result
      = NotifyResult.failed "timeout" ∧
    (notifyPurchaseWebhookOnce refRuntime "t2"
      (notifyPurchaseWebhookOnce refRuntime "t1" StoreFile.samplePaid "q1" allRejected).file
      "q1" allResolved).result = NotifyResult.ok ∧
    (notifyPurchaseWebhookOnce refRuntime "t2"
      (notifyPurchaseWebhookOnce refRuntime "t1" StoreFile.samplePaid "q1" allRejected).file
      "q1" allResolved).posts = [WEBHOOKS.main] := by
  decide

/-- C3, amended: for two successive calls of `notifyPurchaseWebhookOnce` for
one payment id, the second running on the store left by the first: the
webhook is delivered at most once in total; when the first call returns `ok`
the second returns `skipped` with reason `already_notified` and makes no
request; when the first call does not return `ok` it leaves the store as it
was, so the second call starts from the same record. -/
theorem notifyPurchaseWebhookOnce_twice (rt : JSRuntime) (now1 now2 : String) (file : StoreFile)
    (paymentId : String) (post1 post2 : Nat → PostOutcome) :
    (notifyPurchaseWebhookOnce rt now1 file paymentId post1).deliveries +
      (notifyPurchaseWebhookOnce rt now2
        (notifyPurchaseWebhookOnce rt now1 file paymentId post1).file paymentId post2).deliveries
      ≤ 1 ∧
    ((notifyPurchaseWebhookOnce rt now1 file paymentId post1).result = NotifyResult.ok →
      (notifyPurchaseWebhookOnce rt now2
        (notifyPurchaseWebhookOnce rt now1 file paymentId post1).file paymentId post2).result
        = NotifyResult.skipped "already_notified" ∧
      (notifyPurchaseWebhookOnce rt now2
        (notifyPurchaseWebhookOnce rt now1 file paymentId post1).file paymentId post2).posts
        = []) ∧
    ((notifyPurchaseWebhookOnce rt now1 file paymentId post1).result ≠ NotifyResult.ok →
      (notifyPurchaseWebhookOnce rt now1 file paymentId post1).file = file) := by
  have second : ∀ (payments : Payments) (payment : PaymentRecord),
      payments.get paymentId = some payment →
      (notifyPurchaseWebhookOnce rt now2 (StoreFile.present (payments.set paymentId
          { payment with
            webhook_notified := JSValue.bool true
            webhook_notified_at := JSValue.str now1 })) paymentId post2)
        = NotifyRun.quiet (NotifyResult.skipped "already_notified")
            (StoreFile.present (payments.set paymentId
              { payment with
                webhook_notified := JSValue.bool true
                webhook_notified_at := JSValue.str now1 })) := by
    intro payments payment hown
    have hne : paymentId ≠ "__proto__" ∨ payments.get paymentId ≠ none := by
      right
      simp [hown]
    simp [notifyPurchaseWebhookOnce, Payments.read_set_same _ _ _ hne, JSValue.truthy]
  rcases notifyPurchaseWebhookOnce_file rt now1 file paymentId post1 with
    ⟨hf, hr, hd⟩ | ⟨payments, payment, _, hown, hf, hr, hd, _⟩
  · refine ⟨?_, fun h => absurd h hr, fun _ => hf⟩
    rw [hd, hf]
    rcases notifyPurchaseWebhookOnce_file rt now2 file paymentId post2 with
      ⟨_, _, hd2⟩ | ⟨_, _, _, _, _, _, hd2, _⟩ <;> omega
  · refine ⟨?_, fun _ => ?_, fun h => absurd hr h⟩
    · rw [hd, hf, second payments payment hown]
      simp [NotifyRun.quiet]
    · rw [hf, second payments payment hown]
      simp [NotifyRun.quiet]

/-- Witness of C3, amended: a first call that delivers is followed by a second
call that is skipped as already notified. -/
theorem notifyPurchaseWebhookOnce_twice_witness :
    (notifyPurchaseWebhookOnce refRuntime "t1" StoreFile.samplePaid "q1" allResolved).result
      = NotifyResult.ok ∧
    (notifyPurchaseWebhookOnce refRuntime "t2"
      (notifyPurchaseWebhookOnce refRuntime "t1" StoreFile.samplePaid "q1" allResolved).file
      "q1" allResolved).result = NotifyResult.skipped "already_notified" :=
  ⟨by decide,
   ((notifyPurchaseWebhookOnce_twice refRuntime "t1" "t2" StoreFile.samplePaid "q1"
      allResolved allResolved).2.1 (by decide)).1⟩

/-- Counterexample to C5: a store file that exists and cannot be parsed gives
the result `ok: false` with the error message, which is not a `skipped`
result. -/
theorem notifyPurchaseWebhookOnce_unreadable_counterexample :
    (notifyPurchaseWebhookOnce refRuntime "t1"
      (StoreFile.unreadable "Unexpected end of JSON input") "q1" allResolved).result
      = NotifyResult.failed "Unexpected end of JSON input" ∧
    NotifyResult.failed "Unexpected end of JSON input" ≠ NotifyResult.skipped "storage_missing" := by
  decide

/-- C5, amended: `notifyPurchaseWebhookOnce` checks, in this order, that the
store file exists, that the record exists, that `webhook_notified` is not set
and that the record is paid (status `paid` or truthy `is_paid`); on the first
check that fails it returns `skipped` with the reason `storage_missing`,
`payment_not_found`, `already_notified` or `not_paid` respectively, makes no
webhook POST and leaves the store unchanged; a store file that exists and
cannot be read yields the result `ok: false` with the error message, again
without a POST and without a change of the store; none of these raises.  The
record is taken not to exist when the payment id is no own key of the store
and names no member of `Object.prototype`. -/
theorem notifyPurchaseWebhookOnce_preconditions (rt : JSRuntime) (now : String)
    (paymentId : String) (post : Nat → PostOutcome) :
    (∀ run, run = notifyPurchaseWebhookOnce rt now StoreFile.missing paymentId post →
      run.result = NotifyResult.skipped "storage_missing" ∧ run.posts = [] ∧
      run.file = StoreFile.missing) ∧
    (∀ e run, run = notifyPurchaseWebhookOnce rt now (StoreFile.unreadable e) paymentId post →
      run.result = NotifyResult.failed e ∧ run.posts = [] ∧
      run.file = StoreFile.unreadable e) ∧
    (∀ (payments : Payments) run, payments.get paymentId = none →
      paymentId ∉ objectPrototypeNames →
      run = notifyPurchaseWebhookOnce rt now (StoreFile.present payments) paymentId post →
      run.result = NotifyResult.skipped "payment_not_found" ∧ run.posts = [] ∧
      run.file = StoreFile.present payments) ∧
    (∀ (payments : Payments) (payment : PaymentRecord) run,
      payments.get paymentId = some payment → payment.webhook_notified.truthy = true →
      run = notifyPurchaseWebhookOnce rt now (StoreFile.present payments) paymentId post →
      run.result = NotifyResult.skipped "already_notified" ∧ run.posts = [] ∧
      run.file = StoreFile.present payments) ∧
    (∀ (payments : Payments) (payment : PaymentRecord) run,
      payments.get paymentId = some payment → payment.webhook_notified.truthy = false →
      payment.status ≠ JSValue.str "paid" → payment.is_paid.truthy = false →
      run = notifyPurchaseWebhookOnce rt now (StoreFile.present payments) paymentId post →
      run.result = NotifyResult.skipped "not_paid" ∧ run.posts = [] ∧
      run.file = StoreFile.present payments) := by
  refine ⟨?_, ?_, ?_, ?_, ?_⟩
  · intro run h
    subst h
    exact ⟨rfl, rfl, rfl⟩
  · intro e run h
    subst h
    exact ⟨rfl, rfl, rfl⟩
  · intro payments run hg hm h
    subst h
    simp [notifyPurchaseWebhookOnce, NotifyRun.quiet, Payments.read, hg, hm]
  · intro payments payment run hg hn h
    subst h
    simp [notifyPurchaseWebhookOnce, NotifyRun.quiet, Payments.read, hg, hn]
  · intro payments payment run hg hn hs hp h
    subst h
    simp [notifyPurchaseWebhookOnce, NotifyRun.quiet, Payments.read, hg, hn, hs, hp]

/-- Witness of C5, amended: a record that is already notified is reported so
even when its status is not `paid`. -/
theorem notifyPurchaseWebhookOnce_preconditions_witness :
    Payments.get [("q1", { PaymentRecord.sample with webhook_notified := JSValue.bool true })]
      "q1" = some { PaymentRecord.sample with webhook_notified := JSValue.bool true } ∧
    (notifyPurchaseWebhookOnce refRuntime "t1"
      (StoreFile.present
        [("q1", { PaymentRecord.sample with webhook_notified := JSValue.bool true })])
      "q1" allResolved).result = NotifyResult.skipped "already_notified" :=
  ⟨by decide,
   ((notifyPurchaseWebhookOnce_preconditions refRuntime "t1" "q1" allResolved).2.2.2.1
      [("q1", { PaymentRecord.sample with webhook_notified := JSValue.bool true })]
      { PaymentRecord.sample with webhook_notified := JSValue.bool true } _
      (by decide) (by decide) rfl).1⟩

/-- C6: for a paid, un-notified record whose three delivery requests all
fail, `notifyPurchaseWebhookOnce` returns `ok: false` with an error message,
delivers nothing and leaves the store exactly as it was, so `webhook_notified`
is still unset; when the destination resolves, the three requests are made,
the message is that of the last failure, and every later call on the store
left behind makes a request again. -/
theorem notifyPurchaseWebhookOnce_all_fail (rt : JSRuntime) (now : String)
    (payments : Payments) (paymentId : String) (payment : PaymentRecord)
    (post : Nat → PostOutcome) (e0 e1 e2 : String)
    (hg : payments.get paymentId = some payment)
    (hn : payment.webhook_notified.truthy = false)
    (hp : payment.status = JSValue.str "paid" ∨ payment.is_paid.truthy = true)
    (h0 : post 0 = PostOutcome.rejected e0) (h1 : post 1 = PostOutcome.rejected e1)
    (h2 : post 2 = PostOutcome.rejected e2) :
    (∃ message,
      (notifyPurchaseWebhookOnce rt now (StoreFile.present payments) paymentId post).result
        = NotifyResult.failed message) ∧
    (notifyPurchaseWebhookOnce rt now (StoreFile.present payments) paymentId post).deliveries
      = 0 ∧
    (notifyPurchaseWebhookOnce rt now (StoreFile.present payments) paymentId post).file
      = StoreFile.present payments ∧
    getStoredPaymentData
      (notifyPurchaseWebhookOnce rt now (StoreFile.present payments) paymentId post).file
      paymentId = some payment ∧
    (∀ url, resolvePurchaseWebhook rt payment = Except.ok url →
      (notifyPurchaseWebhookOnce rt now (StoreFile.present payments) paymentId post).result
        = NotifyResult.failed e2 ∧
      (notifyPurchaseWebhookOnce rt now (StoreFile.present payments) paymentId post).posts
        = [url, url, url] ∧
      ∀ later post2,
        (notifyPurchaseWebhookOnce rt later
          (notifyPurchaseWebhookOnce rt now (StoreFile.present payments) paymentId post).file
          paymentId post2).posts ≠ []) := by
  have hread := Payments.read_of_get payments paymentId payment hg
  have hp2 : (payment.status = JSValue.str "paid" || payment.is_paid.truthy) = true := by
    rcases hp with h | h <;> simp [h]
  have hrun : (postWithRetry post 3).result = Except.error (some e2) ∧
      (postWithRetry post 3).posts = 3 := by
    simp [postWithRetry, postWithRetryFrom, h0, h1, h2]
  cases hd : resolvePurchaseWebhook rt payment with
  | error e =>
    simp [notifyPurchaseWebhookOnce, NotifyRun.quiet, hread, hn, hp2, hd, getStoredPaymentData]
  | ok url =>
    have hu : url ≠ "" := resolvePurchaseWebhook_ne_empty rt payment url hd
    have hfile :
        (notifyPurchaseWebhookOnce rt now (StoreFile.present payments) paymentId post).file
          = StoreFile.present payments := by
      simp [notifyPurchaseWebhookOnce, hread, hn, hp2, hd, hu, hrun.1]
    refine ⟨⟨e2, ?_⟩, ?_, hfile, ?_, ?_⟩
    · simp [notifyPurchaseWebhookOnce, hread, hn, hp2, hd, hu, hrun.1]
    · simp [notifyPurchaseWebhookOnce, hread, hn, hp2, hd, hu, hrun.1]
    · rw [hfile]
      simp [getStoredPaymentData, hread]
    · intro url2 hurl
      cases hurl
      refine ⟨?_, ?_, ?_⟩
      · simp [notifyPurchaseWebhookOnce, hread, hn, hp2, hd, hu, hrun.1]
      · simp [notifyPurchaseWebhookOnce, hread, hn, hp2, hd, hu, hrun.1, hrun.2,
          List.replicate]
      · intro later post2
        rw [hfile]
        rcases postWithRetry_three_cases post2 with ⟨r, hr, hpos⟩ | ⟨_, _, a2, _, _, _, hr, hpos⟩
        · simp only [notifyPurchaseWebhookOnce, hread, hn, hp2, hd, hu, hr]
          simp
          omega
        · simp only [notifyPurchaseWebhookOnce, hread, hn, hp2, hd, hu, hr]
          simp [hpos]

/-- Witness of C6: three time-outs on the paid sample record give the result
`ok: false` with the message `timeout` and leave the store as it was. -/
theorem notifyPurchaseWebhookOnce_all_fail_witness :
    Payments.get [("q1", { PaymentRecord.sample with status := JSValue.str "paid" })] "q1"
      = some { PaymentRecord.sample with status := JSValue.str "paid" } ∧
    (notifyPurchaseWebhookOnce refRuntime "t1"
      (StoreFile.present [("q1", { PaymentRecord.sample with status := JSValue.str "paid" })])
      "q1" allRejected).result = NotifyResult.failed "timeout" ∧
    (notifyPurchaseWebhookOnce refRuntime "t1"
      (StoreFile.present [("q1", { PaymentRecord.sample with status := JSValue.str "paid" })])
      "q1" allRejected).posts = [WEBHOOKS.main, WEBHOOKS.main, WEBHOOKS.main] :=
  ⟨by decide,
   ((notifyPurchaseWebhookOnce_all_fail refRuntime "t1"
      [("q1", { PaymentRecord.sample with status := JSValue.str "paid" })] "q1"
      { PaymentRecord.sample with status := JSValue.str "paid" } allRejected
      "timeout" "timeout" "timeout" (by decide) (by decide) (Or.inl rfl) rfl rfl rfl).2.2.2.2
      WEBHOOKS.main (by decide)).1,
   ((notifyPurchaseWebhookOnce_all_fail refRuntime "t1"
      [("q1", { PaymentRecord.sample with status := JSValue.str "paid" })] "q1"
      { PaymentRecord.sample with status := JSValue.str "paid" } allRejected
      "timeout" "timeout" "timeout" (by decide) (by decide) (Or.inl rfl) rfl rfl rfl).2.2.2.2
      WEBHOOKS.main (by decide)).2.1⟩

theorem normaliseStatus_paid (rt : JSRuntime) (raw : JSValue)
    (h : (normaliseStatus rt raw).2 = true ∨ (normaliseStatus rt raw).1 = "paid") :
    (normaliseStatus rt raw).1 = "paid" ∧ (normaliseStatus rt raw).2 = true := by
  unfold normaliseStatus at h ⊢
  dsimp only at h ⊢
  split_ifs at h ⊢ <;> first | exact ⟨rfl, rfl⟩ | (exfalso; rcases h with h | h <;> revert h <;> decide)

/-- The gate of the status endpoint: a poll result that passes
`is_paid || status === 'paid'` has status `paid` and `is_paid` true. -/
theorem checkQRSimpleStatus_gate (rt : JSRuntime) (qrId : JSValue) (reply : ProviderReply)
    (h : ((checkQRSimpleStatus rt qrId reply).is_paid.truthy ||
      decide ((checkQRSimpleStatus rt qrId reply).status = JSValue.str "paid")) = true) :
    (checkQRSimpleStatus rt qrId reply).status = JSValue.str "paid" ∧
    (checkQRSimpleStatus rt qrId reply).is_paid = JSValue.bool true := by
  cases reply with
  | rejected e => simp [checkQRSimpleStatus, pendingResult, JSValue.truthy] at h
  | data d =>
    by_cases hs : d.success = JSValue.bool false
    · simp [checkQRSimpleStatus, hs, pendingResult, JSValue.truthy] at h
    · have hn := normaliseStatus_paid rt (statusCodeRaw d)
      simp only [checkQRSimpleStatus, hs, if_false, JSValue.truthy, Bool.or_eq_true,
        decide_eq_true_eq, JSValue.str.injEq] at h
      obtain ⟨h1, h2⟩ := hn h
      simp [checkQRSimpleStatus, hs, h1, h2]

/-- The notifier changes neither the status nor `is_paid` of a record. -/
theorem notifyPurchaseWebhookOnce_keeps_status (rt : JSRuntime) (now : String)
    (file : StoreFile) (paymentId : String) (post : Nat → PostOutcome) (record : PaymentRecord)
    (hg : getStoredPaymentData file paymentId = some record) :
    ∃ after,
      getStoredPaymentData (notifyPurchaseWebhookOnce rt now file paymentId post).file paymentId
        = some after ∧
      after.status = record.status ∧ after.is_paid = record.is_paid := by
  rcases notifyPurchaseWebhookOnce_file rt now file paymentId post with
    ⟨hf, _, _⟩ | ⟨ps, p, hpres, hget, hf, _, _⟩
  · rw [hf]
    exact ⟨record, hg, rfl, rfl⟩
  · rw [hf]
    subst hpres
    have hread := Payments.read_of_get ps paymentId p hget
    have hne : paymentId ≠ "__proto__" ∨ ps.get paymentId ≠ none := Or.inr (by simp [hget])
    simp only [getStoredPaymentData, hread, Option.some.injEq] at hg
    subst hg
    simp only [getStoredPaymentData, Payments.read_set_same _ _ _ hne]
    exact ⟨_, rfl, rfl, rfl⟩

/-- The status and `is_paid` that `updateStoredPaymentStatus` writes. -/
theorem updateStoredPaymentStatus_get (now : String) (payments : Payments) (paymentId : String)
    (statusObj : StatusResult) (current : PaymentRecord)
    (hg : payments.get paymentId = some current) :
    ∃ after,
      getStoredPaymentData
        (updateStoredPaymentStatus now (StoreFile.present payments) paymentId statusObj)
        paymentId = some after ∧
      after.status = (statusObj.status.or current.status).toJSON ∧
      after.is_paid = JSValue.bool statusObj.is_paid.truthy := by
  have hread := Payments.read_of_get payments paymentId current hg
  have hne : paymentId ≠ "__proto__" ∨ payments.get paymentId ≠ none := Or.inr (by simp [hg])
  simp only [updateStoredPaymentStatus, hread, getStoredPaymentData,
    Payments.read_set_same _ _ _ hne]
  exact ⟨_, rfl, rfl, rfl⟩

/-- Counterexample to C10: on a store whose record `q1` is paid,
`updateStoredPaymentStatus` with a pending status object makes the record
pending with `is_paid` false, and `storePaymentData` of a pending record with
the same payment id replaces the paid record. -/
theorem updateStoredPaymentStatus_downgrade_counterexample :
    (getStoredPaymentData StoreFile.samplePaid "q1").map (fun r => r.status)
      = some (JSValue.str "paid") ∧
    (getStoredPaymentData
      (updateStoredPaymentStatus "t1" StoreFile.samplePaid "q1"
        (pendingResult refRuntime (JSValue.str "q1"))) "q1").map (fun r => (r.status, r.is_paid))
      = some (JSValue.str "pending", JSValue.bool false) ∧
    (getStoredPaymentData
      (storePaymentData refRuntime StoreFile.samplePaid PaymentRecord.sample) "q1").map
        (fun r => r.status) = some (JSValue.str "pending") := by
  decide

/-- C10, amended: for every store in which the record of a payment id has
status `paid`: (a) a status poll through `GET /api/payment-status`, whatever
the provider answers and however the delivery goes, leaves a record with
status `paid`, with `is_paid` true if it was true before; (b)
`updateStoredPaymentStatus` with a status object whose status is `paid` or
empty leaves status `paid` and sets `is_paid` to the truthiness of the
object's `is_paid`; (c) `storePaymentData` of a record with another payment id
leaves the record as it was. -/
theorem paid_status_preserved (rt : JSRuntime) (now : String) (payments : Payments)
    (paymentId : String) (current : PaymentRecord)
    (hg : payments.get paymentId = some current) (hs : current.status = JSValue.str "paid") :
    (∀ reply post, ∃ after,
      getStoredPaymentData
        (paymentStatusEndpoint rt now (StoreFile.present payments) paymentId reply post).file
        paymentId = some after ∧
      after.status = JSValue.str "paid" ∧
      (current.is_paid = JSValue.bool true → after.is_paid = JSValue.bool true)) ∧
    (∀ statusObj : StatusResult,
      statusObj.status = JSValue.str "paid" ∨ statusObj.status.truthy = false →
      ∃ after,
        getStoredPaymentData
          (updateStoredPaymentStatus now (StoreFile.present payments) paymentId statusObj)
          paymentId = some after ∧
        after.status = JSValue.str "paid" ∧
        after.is_paid = JSValue.bool statusObj.is_paid.truthy) ∧
    (∀ paymentData : PaymentRecord, paymentData.payment_id.toStr rt ≠ paymentId →
      getStoredPaymentData (storePaymentData rt (StoreFile.present payments) paymentData)
        paymentId = some current) := by
  refine ⟨?_, ?_, ?_⟩
  · intro reply post
    by_cases hgate :
        ((checkQRSimpleStatus rt (JSValue.str paymentId) reply).success.truthy &&
          ((checkQRSimpleStatus rt (JSValue.str paymentId) reply).is_paid.truthy ||
            decide ((checkQRSimpleStatus rt (JSValue.str paymentId) reply).status
              = JSValue.str "paid"))) = true
    · have hpaid := checkQRSimpleStatus_gate rt (JSValue.str paymentId) reply
        (by simp only [Bool.and_eq_true] at hgate; exact hgate.2)
      have hfile : (paymentStatusEndpoint rt now (StoreFile.present payments) paymentId reply
          post).file = (notifyPurchaseWebhookOnce rt now
            (updateStoredPaymentStatus now (StoreFile.present payments) paymentId
              (checkQRSimpleStatus rt (JSValue.str paymentId) reply)) paymentId post).file := by
        unfold paymentStatusEndpoint
        simp only [hgate, if_true]
        split <;> rfl
      obtain ⟨mid, hmid, hst, hip⟩ := updateStoredPaymentStatus_get now payments paymentId
        (checkQRSimpleStatus rt (JSValue.str paymentId) reply) current hg
      obtain ⟨after, hafter, hst2, hip2⟩ := notifyPurchaseWebhookOnce_keeps_status rt now
        _ paymentId post mid hmid
      refine ⟨after, by rw [hfile]; exact hafter, ?_, fun _ => ?_⟩
      · rw [hst2, hst, hpaid.1]
        simp [JSValue.or, JSValue.truthy, JSValue.toJSON]
      · rw [hip2, hip, hpaid.2]
        simp [JSValue.truthy]
    · have hfile : (paymentStatusEndpoint rt now (StoreFile.present payments) paymentId reply
          post).file = StoreFile.present payments := by
        unfold paymentStatusEndpoint
        simp only [hgate]
        rfl
      rw [hfile]
      exact ⟨current, by simp [getStoredPaymentData, Payments.read_of_get _ _ _ hg], hs,
        fun h => h⟩
  · intro statusObj hst
    obtain ⟨after, hafter, h1, h2⟩ :=
      updateStoredPaymentStatus_get now payments paymentId statusObj current hg
    refine ⟨after, hafter, ?_, h2⟩
    rw [h1]
    rcases hst with h | h
    · simp [h, JSValue.or, JSValue.truthy, JSValue.toJSON]
    · simp [h, JSValue.or, hs, JSValue.toJSON]
  · intro paymentData hne
    simp [storePaymentData, getStoredPaymentData, Payments.read_set_other _ _ _ _ hne,
      Payments.read_of_get _ _ _ hg]

/-- Witness of C10, amended: a poll that reads pending leaves the paid sample
record paid. -/
theorem paid_status_preserved_witness :
    Payments.get [("q1", { PaymentRecord.sample with status := JSValue.str "paid" })] "q1"
      = some { PaymentRecord.sample with status := JSValue.str "paid" } ∧
    ∃ after,
      getStoredPaymentData
        (paymentStatusEndpoint refRuntime "t1"
          (StoreFile.present
            [("q1", { PaymentRecord.sample with status := JSValue.str "paid" })])
          "q1" (ProviderReply.data StatusData.empty) allResolved).file "q1" = some after ∧
      after.status = JSValue.str "paid" ∧
      (({ PaymentRecord.sample with status := JSValue.str "paid" } : PaymentRecord).is_paid
        = JSValue.bool true → after.is_paid = JSValue.bool true) :=
  ⟨by decide,
   (paid_status_preserved refRuntime "t1"
      [("q1", { PaymentRecord.sample with status := JSValue.str "paid" })] "q1"
      { PaymentRecord.sample with status := JSValue.str "paid" } (by decide) rfl).1
      (ProviderReply.data StatusData.empty) allResolved⟩

/-- What `updateStoredPaymentStatus`, called for any payment id, leaves of a
stored record: the record is still there, with the notification flag and the
provider fields it had. -/
theorem updateStoredPaymentStatus_keeps (now : String) (file : StoreFile) (key : String)
    (paymentId : String) (statusObj : StatusResult) (record : PaymentRecord)
    (hg : getStoredPaymentData file key = some record) :
    ∃ after,
      getStoredPaymentData (updateStoredPaymentStatus now file paymentId statusObj) key
        = some after ∧
      after.webhook_notified = record.webhook_notified ∧
      after.provider_status_code = record.provider_status_code ∧
      after.provider_qr_id = record.provider_qr_id ∧
      after.voucher_id = record.voucher_id := by
  cases file with
  | missing => simp [getStoredPaymentData] at hg
  | unreadable e => simp [getStoredPaymentData] at hg
  | present payments =>
    simp only [getStoredPaymentData] at hg
    cases hc : payments.read paymentId with
    | none =>
      simp only [updateStoredPaymentStatus, hc, getStoredPaymentData]
      exact ⟨record, hg, rfl, rfl, rfl, rfl⟩
    | some current =>
      by_cases hk : paymentId = key
      · subst hk
        rw [hc] at hg
        injection hg with hg
        subst hg
        by_cases hne : paymentId ≠ "__proto__" ∨ payments.get paymentId ≠ none
        · simp only [updateStoredPaymentStatus, hc, getStoredPaymentData,
            Payments.read_set_same _ _ _ hne]
          exact ⟨_, rfl, rfl, rfl, rfl, rfl⟩
        · have h1 : paymentId = "__proto__" := by
            by_contra h
            exact hne (Or.inl h)
          have h2 : payments.get "__proto__" = none := by
            by_contra h
            exact hne (Or.inr (h1 ▸ h))
          subst h1
          simp only [updateStoredPaymentStatus, hc, getStoredPaymentData,
            Payments.set_proto _ _ h2]
          exact ⟨current, rfl, rfl, rfl, rfl, rfl⟩
      · simp only [updateStoredPaymentStatus, hc, getStoredPaymentData,
          Payments.read_set_other _ _ _ _ hk]
        exact ⟨record, hg, rfl, rfl, rfl, rfl⟩

/-- What `notifyPurchaseWebhookOnce`, called for any payment id, leaves of a
stored record: the record is still there with the provider fields it had, and
with the notification flag it had when that flag was set. -/
theorem notifyPurchaseWebhookOnce_keeps (rt : JSRuntime) (now : String) (file : StoreFile)
    (key : String) (paymentId : String) (post : Nat → PostOutcome) (record : PaymentRecord)
    (hg : getStoredPaymentData file key = some record) :
    ∃ after,
      getStoredPaymentData (notifyPurchaseWebhookOnce rt now file paymentId post).file key
        = some after ∧
      (record.webhook_notified.truthy = true →
        after.webhook_notified = record.webhook_notified) ∧
      after.provider_status_code = record.provider_status_code ∧
      after.provider_qr_id = record.provider_qr_id ∧
      after.voucher_id = record.voucher_id := by
  rcases notifyPurchaseWebhookOnce_file rt now file paymentId post with
    ⟨hf, _, _⟩ | ⟨ps, p, hpres, hget, hf, hok, _⟩
  · rw [hf]
    exact ⟨record, hg, fun _ => rfl, rfl, rfl, rfl⟩
  · rw [hf]
    subst hpres
    simp only [getStoredPaymentData] at hg ⊢
    by_cases hk : paymentId = key
    · subst hk
      have hread := Payments.read_of_get ps paymentId p hget
      have hne : paymentId ≠ "__proto__" ∨ ps.get paymentId ≠ none :=
        Or.inr (by simp [hget])
      rw [hread] at hg
      injection hg with hg
      subst hg
      rw [Payments.read_set_same _ _ _ hne]
      refine ⟨_, rfl, fun hn => ?_, rfl, rfl, rfl⟩
      exfalso
      simp [notifyPurchaseWebhookOnce, NotifyRun.quiet, hread, hn] at hok
    · rw [Payments.read_set_other _ _ _ _ hk]
      exact ⟨record, hg, fun _ => rfl, rfl, rfl, rfl⟩

/-- Counterexample to C11: on a store whose record `q1` is paid and notified,
`storePaymentData` of a newly created record with the payment id `q1` leaves a
record without `webhook_notified`. -/
theorem storePaymentData_resets_flag_counterexample :
    (getStoredPaymentData
      (StoreFile.present [("q1", { PaymentRecord.sample with
        status := JSValue.str "paid"
        webhook_notified := JSValue.bool true })]) "q1").map (fun r => r.webhook_notified)
      = some (JSValue.bool true) ∧
    (getStoredPaymentData
      (storePaymentData refRuntime
        (StoreFile.present [("q1", { PaymentRecord.sample with
          status := JSValue.str "paid"
          webhook_notified := JSValue.bool true })])
        PaymentRecord.sample) "q1").map (fun r => r.webhook_notified)
      = some JSValue.undefined := by
  decide

/-- C11, amended: for every store in which the record of a payment id has
`webhook_notified` set, `updateStoredPaymentStatus` and
`notifyPurchaseWebhookOnce`, called for any payment id, leave that record with
the same `webhook_notified`, and `storePaymentData` of a record with another
payment id leaves the record as it was. -/
theorem webhook_notified_kept (rt : JSRuntime) (file : StoreFile) (key : String)
    (record : PaymentRecord) (hg : getStoredPaymentData file key = some record)
    (hn : record.webhook_notified.truthy = true) :
    (∀ now paymentId statusObj, ∃ after,
      getStoredPaymentData (updateStoredPaymentStatus now file paymentId statusObj) key
        = some after ∧
      after.webhook_notified = record.webhook_notified) ∧
    (∀ now paymentId post, ∃ after,
      getStoredPaymentData (notifyPurchaseWebhookOnce rt now file paymentId post).file key
        = some after ∧
      after.webhook_notified = record.webhook_notified) ∧
    (∀ paymentData : PaymentRecord, paymentData.payment_id.toStr rt ≠ key →
      getStoredPaymentData (storePaymentData rt file paymentData) key = some record) := by
  refine ⟨?_, ?_, ?_⟩
  · intro now paymentId statusObj
    obtain ⟨after, h1, h2, _⟩ :=
      updateStoredPaymentStatus_keeps now file key paymentId statusObj record hg
    exact ⟨after, h1, h2⟩
  · intro now paymentId post
    obtain ⟨after, h1, h2, _⟩ :=
      notifyPurchaseWebhookOnce_keeps rt now file key paymentId post record hg
    exact ⟨after, h1, h2 hn⟩
  · intro paymentData hne
    cases file with
    | missing => simp [getStoredPaymentData] at hg
    | unreadable e => simp [getStoredPaymentData] at hg
    | present payments =>
      simp only [getStoredPaymentData] at hg
      simp [storePaymentData, getStoredPaymentData, Payments.read_set_other _ _ _ _ hne, hg]

/-- Witness of C11, amended: a later paid poll result written by
`updateStoredPaymentStatus` leaves the flag of a notified record set. -/
theorem webhook_notified_kept_witness :
    getStoredPaymentData
      (StoreFile.present [("q1", { PaymentRecord.sample with
        status := JSValue.str "paid"
        webhook_notified := JSValue.bool true })]) "q1"
      = some { PaymentRecord.sample with
          status := JSValue.str "paid"
          webhook_notified := JSValue.bool true } ∧
    ∃ after,
      getStoredPaymentData
        (updateStoredPaymentStatus "t2"
          (StoreFile.present [("q1", { PaymentRecord.sample with
            status := JSValue.str "paid"
            webhook_notified := JSValue.bool true })])
          "q1" (pendingResult refRuntime (JSValue.str "q1"))) "q1" = some after ∧
      after.webhook_notified
        = ({ PaymentRecord.sample with
            status := JSValue.str "paid"
            webhook_notified := JSValue.bool true } : PaymentRecord).webhook_notified :=
  ⟨by decide,
   (webhook_notified_kept refRuntime
      (StoreFile.present [("q1", { PaymentRecord.sample with
        status := JSValue.str "paid"
        webhook_notified := JSValue.bool true })]) "q1"
      { PaymentRecord.sample with
        status := JSValue.str "paid"
        webhook_notified := JSValue.bool true } (by decide) (by decide)).1
      "t2" "q1" (pendingResult refRuntime (JSValue.str "q1"))⟩

/-- Counterexample to C12: a poll of the stored pending record `q1` that
observes `statusId: 3`, normalised to expired, leaves the store as it was and
the record pending. -/
theorem paymentStatusEndpoint_expired_counterexample :
    (checkQRSimpleStatus refRuntime (JSValue.str "q1") (ProviderReply.data
      { StatusData.empty with statusId := JSValue.num (JSNum.fin 3) })).status
      = JSValue.str "expired" ∧
    (paymentStatusEndpoint refRuntime "t1" (StoreFile.present [("q1", PaymentRecord.sample)])
      "q1" (ProviderReply.data { StatusData.empty with statusId := JSValue.num (JSNum.fin 3) })
      allResolved).file = StoreFile.present [("q1", PaymentRecord.sample)] ∧
    PaymentRecord.sample.status = JSValue.str "pending" := by
  decide

/-- C12, amended: for every status poll of a stored payment, when the
normalised status is `paid` the endpoint rewrites the stored record so that
its status is `paid` and `is_paid` is true; when the normalised status is
anything else (pending, expired or error) the endpoint leaves the store
untouched and does not call the notifier. -/
theorem paymentStatusEndpoint_writes_only_paid (rt : JSRuntime) (now : String)
    (payments : Payments) (paymentId : String) (current : PaymentRecord)
    (reply : ProviderReply) (post : Nat → PostOutcome)
    (hg : payments.get paymentId = some current) :
    ((checkQRSimpleStatus rt (JSValue.str paymentId) reply).status = JSValue.str "paid" →
      ∃ after,
        getStoredPaymentData
          (paymentStatusEndpoint rt now (StoreFile.present payments) paymentId reply post).file
          paymentId = some after ∧
        after.status = JSValue.str "paid" ∧ after.is_paid = JSValue.bool true) ∧
    ((checkQRSimpleStatus rt (JSValue.str paymentId) reply).status ≠ JSValue.str "paid" →
      (paymentStatusEndpoint rt now (StoreFile.present payments) paymentId reply post).file
        = StoreFile.present payments ∧
      (paymentStatusEndpoint rt now (StoreFile.present payments) paymentId reply
        post).notify.isNone = true) := by
  have hsucc : (checkQRSimpleStatus rt (JSValue.str paymentId) reply).success
      = JSValue.bool true := by
    cases reply with
    | rejected e => rfl
    | data d =>
      by_cases hs : d.success = JSValue.bool false
      · simp [checkQRSimpleStatus, hs, pendingResult]
      · simp [checkQRSimpleStatus, hs]
  refine ⟨?_, ?_⟩
  · intro hpaid
    have hgate : ((checkQRSimpleStatus rt (JSValue.str paymentId) reply).is_paid.truthy ||
        decide ((checkQRSimpleStatus rt (JSValue.str paymentId) reply).status
          = JSValue.str "paid")) = true := by
      simp [hpaid]
    have hboth := checkQRSimpleStatus_gate rt (JSValue.str paymentId) reply hgate
    have hfile : (paymentStatusEndpoint rt now (StoreFile.present payments) paymentId reply
        post).file = (notifyPurchaseWebhookOnce rt now
          (updateStoredPaymentStatus now (StoreFile.present payments) paymentId
            (checkQRSimpleStatus rt (JSValue.str paymentId) reply)) paymentId post).file := by
      have hall : ((checkQRSimpleStatus rt (JSValue.str paymentId) reply).success.truthy &&
          ((checkQRSimpleStatus rt (JSValue.str paymentId) reply).is_paid.truthy ||
            decide ((checkQRSimpleStatus rt (JSValue.str paymentId) reply).status
              = JSValue.str "paid"))) = true := by
        rw [hgate, hsucc]
        rfl
      unfold paymentStatusEndpoint
      simp only [hall, if_true]
      split <;> rfl
    obtain ⟨mid, hmid, hst, hip⟩ := updateStoredPaymentStatus_get now payments paymentId
      (checkQRSimpleStatus rt (JSValue.str paymentId) reply) current hg
    obtain ⟨after, hafter, hst2, hip2⟩ := notifyPurchaseWebhookOnce_keeps_status rt now
      _ paymentId post mid hmid
    refine ⟨after, by rw [hfile]; exact hafter, ?_, ?_⟩
    · rw [hst2, hst, hboth.1]
      simp [JSValue.or, JSValue.truthy, JSValue.toJSON]
    · rw [hip2, hip, hboth.2]
      simp [JSValue.truthy]
  · intro hnot
    have hgate : ((checkQRSimpleStatus rt (JSValue.str paymentId) reply).is_paid.truthy ||
        decide ((checkQRSimpleStatus rt (JSValue.str paymentId) reply).status
          = JSValue.str "paid")) = false := by
      cases hb : ((checkQRSimpleStatus rt (JSValue.str paymentId) reply).is_paid.truthy ||
        decide ((checkQRSimpleStatus rt (JSValue.str paymentId) reply).status
          = JSValue.str "paid")) with
      | false => rfl
      | true => exact absurd (checkQRSimpleStatus_gate rt _ reply hb).1 hnot
    unfold paymentStatusEndpoint
    simp only [hgate, Bool.and_false]
    exact ⟨rfl, rfl⟩

/-- Witness of C12, amended: a poll of the stored pending record `q1` that
observes `statusId: 2` leaves the record paid. -/
theorem paymentStatusEndpoint_writes_only_paid_witness :
    Payments.get [("q1", PaymentRecord.sample)] "q1" = some PaymentRecord.sample ∧
    (checkQRSimpleStatus refRuntime (JSValue.str "q1") (ProviderReply.data
      { StatusData.empty with statusId := JSValue.num (JSNum.fin 2) })).status
      = JSValue.str "paid" ∧
    ∃ after,
      getStoredPaymentData
        (paymentStatusEndpoint refRuntime "t1" (StoreFile.present [("q1", PaymentRecord.sample)])
          "q1" (ProviderReply.data
            { StatusData.empty with statusId := JSValue.num (JSNum.fin 2) }) allResolved).file
        "q1" = some after ∧
      after.status = JSValue.str "paid" ∧ after.is_paid = JSValue.bool true :=
  ⟨by decide, by decide,
   (paymentStatusEndpoint_writes_only_paid refRuntime "t1" [("q1", PaymentRecord.sample)] "q1"
      PaymentRecord.sample
      (ProviderReply.data { StatusData.empty with statusId := JSValue.num (JSNum.fin 2) })
      allResolved (by decide)).1 (by decide)⟩

/-- C13: `checkQRSimpleStatus` returns a result for every answer of the
provider; when the request fails with any error, or the provider answers with
`success: false`, the result has status `pending` and `is_paid` false. -/
theorem checkQRSimpleStatus_degrades_to_pending (rt : JSRuntime) (qrId : JSValue) :
    (∀ e,
      (checkQRSimpleStatus rt qrId (ProviderReply.rejected e)).status = JSValue.str "pending" ∧
      (checkQRSimpleStatus rt qrId (ProviderReply.rejected e)).is_paid = JSValue.bool false) ∧
    (∀ data : StatusData, data.success = JSValue.bool false →
      (checkQRSimpleStatus rt qrId (ProviderReply.data data)).status = JSValue.str "pending" ∧
      (checkQRSimpleStatus rt qrId (ProviderReply.data data)).is_paid = JSValue.bool false) := by
  refine ⟨fun e => ⟨rfl, rfl⟩, ?_⟩
  intro data hs
  simp [checkQRSimpleStatus, hs, pendingResult]

/-- Witness of C13: an answer `success: false` that carries `statusId: 2` is
reported pending. -/
theorem checkQRSimpleStatus_degrades_to_pending_witness :
    ({ StatusData.empty with
        success := JSValue.bool false
        statusId := JSValue.num (JSNum.fin 2) } : StatusData).success = JSValue.bool false ∧
    (checkQRSimpleStatus refRuntime (JSValue.str "q1") (ProviderReply.data
      { StatusData.empty with
        success := JSValue.bool false
        statusId := JSValue.num (JSNum.fin 2) })).status = JSValue.str "pending" :=
  ⟨rfl,
   ((checkQRSimpleStatus_degrades_to_pending refRuntime (JSValue.str "q1")).2
      { StatusData.empty with
        success := JSValue.bool false
        statusId := JSValue.num (JSNum.fin 2) } rfl).1⟩

/-- The requests that the validation of `POST /api/create-payment` turns
away: without a customer object, with a falsy name, email or amount, or with
an amount whose number is at most zero, the answer is 400, and
`createQRSimplePayment` is not called and the store is not touched. -/
theorem createPaymentEndpoint_validation (rt : JSRuntime) (ctx : CreateContext)
    (file : StoreFile) (body : CreatePaymentBody) (reply : CreateReply)
    (h : body.customer = none ∨
      (∃ c, body.customer = some c ∧ (c.name.truthy = false ∨ c.email.truthy = false)) ∨
      body.amount.truthy = false ∨ (body.amount.toNumber rt).leZero = true) :
    (createPaymentEndpoint rt ctx file body reply).status = 400 ∧
    (createPaymentEndpoint rt ctx file body reply).created = none ∧
    (createPaymentEndpoint rt ctx file body reply).file = file := by
  unfold createPaymentEndpoint
  cases hc : body.customer with
  | none => exact ⟨rfl, rfl, rfl⟩
  | some c =>
    dsimp only
    rcases h with h | ⟨c2, h2, h3⟩ | h | h
    · rw [hc] at h
      cases h
    · rw [hc] at h2
      injection h2 with h2
      subst h2
      rcases h3 with h3 | h3 <;> simp [h3]
    · simp [h]
    · split_ifs <;> exact ⟨rfl, rfl, rfl⟩

/-- C14, at the failing input: the body with customer `Ana`, `a@x.com` and
amount `"abc"`, whose number is `NaN`, passes both validations; the handler
calls `createQRSimplePayment`, a creation request goes to the provider, a
record with a `null` amount is stored and the answer is 200. -/
theorem createPaymentEndpoint_non_numeric_amount :
    (JSValue.str "abc").toNumber refRuntime = JSNum.nan ∧
    (createPaymentEndpoint refRuntime CreateContext.sample StoreFile.missing
      { CreatePaymentBody.sample with amount := JSValue.str "abc" } CreateReply.sample).status
      = 200 ∧
    (createPaymentEndpoint refRuntime CreateContext.sample StoreFile.missing
      { CreatePaymentBody.sample with amount := JSValue.str "abc" } CreateReply.sample).created.map
        (fun run => run.requests.map (fun q => q.amount)) = some [JSNum.nan] ∧
    (getStoredPaymentData
      (createPaymentEndpoint refRuntime CreateContext.sample StoreFile.missing
        { CreatePaymentBody.sample with amount := JSValue.str "abc" } CreateReply.sample).file
      "q1").map (fun r => r.amount_bob) = some JSValue.null := by
  decide

/-- Counterexample to C15: when `payments.json` exists and cannot be parsed,
`storePaymentData` writes nothing and `getStoredPaymentData` returns `null`
for the id just stored, also for the payment id of a creation that answered
200. -/
theorem storePaymentData_unreadable_counterexample :
    getStoredPaymentData
      (storePaymentData refRuntime (StoreFile.unreadable "Unexpected end of JSON input")
        PaymentRecord.sample)
      (PaymentRecord.sample.payment_id.toStr refRuntime) = none ∧
    (createPaymentEndpoint refRuntime CreateContext.sample
      (StoreFile.unreadable "Unexpected end of JSON input")
      CreatePaymentBody.sample CreateReply.sample).status = 200 ∧
    getStoredPaymentData
      (createPaymentEndpoint refRuntime CreateContext.sample
        (StoreFile.unreadable "Unexpected end of JSON input")
        CreatePaymentBody.sample CreateReply.sample).file "q1" = none := by
  decide

theorem storePaymentData_get (rt : JSRuntime) (file : StoreFile) (paymentData : PaymentRecord)
    (hfile : ∀ e, file ≠ StoreFile.unreadable e)
    (hkey : paymentData.payment_id.toStr rt ≠ "__proto__") :
    getStoredPaymentData (storePaymentData rt file paymentData)
      (paymentData.payment_id.toStr rt) = some paymentData.toJSON := by
  cases file with
  | missing =>
    simp [storePaymentData, getStoredPaymentData, Payments.read_set_same _ _ _ (Or.inl hkey)]
  | unreadable e => exact absurd rfl (hfile e)
  | present payments =>
    simp [storePaymentData, getStoredPaymentData, Payments.read_set_same _ _ _ (Or.inl hkey)]

/-- What is read under the payment id after `storePaymentData`, for every
payment id: the record as JSON keeps it, or, for the id `__proto__`, the
inherited member. -/
theorem storePaymentData_read (rt : JSRuntime) (file : StoreFile) (paymentData : PaymentRecord)
    (hfile : ∀ e, file ≠ StoreFile.unreadable e) :
    getStoredPaymentData (storePaymentData rt file paymentData)
        (paymentData.payment_id.toStr rt) = some paymentData.toJSON ∨
    getStoredPaymentData (storePaymentData rt file paymentData)
        (paymentData.payment_id.toStr rt) = some PaymentRecord.inherited := by
  have hin : "__proto__" ∈ objectPrototypeNames := by decide
  cases file with
  | unreadable e => exact absurd rfl (hfile e)
  | missing =>
    by_cases hkey : paymentData.payment_id.toStr rt = "__proto__"
    · right
      simp [storePaymentData, getStoredPaymentData, hkey, Payments.set, Payments.read,
        Payments.get, hin]
    · left
      exact storePaymentData_get rt _ paymentData hfile hkey
  | present payments =>
    by_cases hne : paymentData.payment_id.toStr rt ≠ "__proto__" ∨
        payments.get (paymentData.payment_id.toStr rt) ≠ none
    · left
      simp [storePaymentData, getStoredPaymentData, Payments.read_set_same _ _ _ hne]
    · have h1 : paymentData.payment_id.toStr rt = "__proto__" := by
        by_contra h
        exact hne (Or.inl h)
      have h2 : payments.get "__proto__" = none := by
        by_contra h
        exact hne (Or.inr (h1 ▸ h))
      right
      simp [storePaymentData, getStoredPaymentData, h1, Payments.set_proto _ _ h2,
        Payments.read, h2, hin]

/-- What a successful `createQRSimplePayment` leaves: the store written by
`storePaymentData` of the returned record, which carries no provider status
field and no notification flag. -/
theorem createQRSimplePayment_success (rt : JSRuntime) (ctx : CreateContext) (file : StoreFile)
    (paymentData : PaymentData) (reply : CreateReply) (record : PaymentRecord)
    (h : (createQRSimplePayment rt ctx file paymentData reply).result
      = CreateResult.success record) :
    (createQRSimplePayment rt ctx file paymentData reply).file
      = storePaymentData rt file record ∧
    record.provider_status_code = JSValue.undefined ∧
    record.provider_qr_id = JSValue.undefined ∧
    record.voucher_id = JSValue.undefined ∧
    record.webhook_notified = JSValue.undefined := by
  unfold createQRSimplePayment at h ⊢
  cases reply with
  | rejected details code => simp at h
  | data d =>
    dsimp only at h ⊢
    by_cases hs : d.success.truthy = true
    · simp only [hs, if_true] at h ⊢
      cases hq : qrCodeImage ((d.qr.or d.qrImage).or d.qrContent) with
      | none => simp [hq] at h
      | some image =>
        simp only [hq, CreateResult.success.injEq] at h ⊢
        subst h
        exact ⟨rfl, rfl, rfl, rfl, rfl⟩
    · simp [hs] at h

/-- C15, amended: when `payments.json` is absent or holds a JSON object and
the payment id of the record, as a string, is not `__proto__`, after
`storePaymentData(record)` the call `getStoredPaymentData(record.payment_id)`
returns the record as JSON keeps it (`NaN` and infinite numbers become
`null`, every other value is kept), and the payment id returned by a
successful `createQRSimplePayment` is present in the store when the call
returns; records stored under other ids are returned unchanged; when the file
exists and cannot be parsed, `storePaymentData` leaves it as it is. -/
theorem storePaymentData_then_get (rt : JSRuntime) :
    (∀ (file : StoreFile) (paymentData : PaymentRecord),
      (∀ e, file ≠ StoreFile.unreadable e) →
      paymentData.payment_id.toStr rt ≠ "__proto__" →
      getStoredPaymentData (storePaymentData rt file paymentData)
        (paymentData.payment_id.toStr rt) = some paymentData.toJSON) ∧
    (∀ (payments : Payments) (paymentData : PaymentRecord) (other : String)
      (stored : PaymentRecord),
      other ≠ paymentData.payment_id.toStr rt → payments.get other = some stored →
      getStoredPaymentData (storePaymentData rt (StoreFile.present payments) paymentData) other
        = some stored) ∧
    (∀ v : JSValue, v ≠ JSValue.num JSNum.nan → v ≠ JSValue.num JSNum.posInf →
      v ≠ JSValue.num JSNum.negInf → v.toJSON = v) ∧
    (∀ (ctx : CreateContext) (file : StoreFile) (paymentData : PaymentData)
      (reply : CreateReply) (record : PaymentRecord),
      (∀ e, file ≠ StoreFile.unreadable e) →
      record.payment_id.toStr rt ≠ "__proto__" →
      (createQRSimplePayment rt ctx file paymentData reply).result
        = CreateResult.success record →
      getStoredPaymentData (createQRSimplePayment rt ctx file paymentData reply).file
        (record.payment_id.toStr rt) = some record.toJSON) ∧
    (∀ e (paymentData : PaymentRecord),
      storePaymentData rt (StoreFile.unreadable e) paymentData = StoreFile.unreadable e) := by
  refine ⟨?_, ?_, ?_, ?_, fun _ _ => rfl⟩
  · intro file paymentData hfile hkey
    exact storePaymentData_get rt file paymentData hfile hkey
  · intro payments paymentData other stored hne hg
    simp [storePaymentData, getStoredPaymentData, Payments.read_set_other _ _ _ _ hne.symm,
      Payments.read_of_get _ _ _ hg]
  · intro v h1 h2 h3
    cases v with
    | num x => cases x <;> simp_all [JSValue.toJSON]
    | _ => rfl
  · intro ctx file paymentData reply record hfile hkey hres
    rw [(createQRSimplePayment_success rt ctx file paymentData reply record hres).1]
    exact storePaymentData_get rt file record hfile hkey

/-- Witness of C15, amended: the sample record stored into an absent file is
returned by `getStoredPaymentData`. -/
theorem storePaymentData_then_get_witness :
    (∀ e, StoreFile.missing ≠ StoreFile.unreadable e) ∧
    PaymentRecord.sample.payment_id.toStr refRuntime ≠ "__proto__" ∧
    getStoredPaymentData (storePaymentData refRuntime StoreFile.missing PaymentRecord.sample)
      (PaymentRecord.sample.payment_id.toStr refRuntime) = some PaymentRecord.sample.toJSON ∧
    PaymentRecord.sample.toJSON = PaymentRecord.sample :=
  ⟨fun _ h => StoreFile.noConfusion h, by decide,
   (storePaymentData_then_get refRuntime).1 StoreFile.missing PaymentRecord.sample
      (fun _ h => StoreFile.noConfusion h) (by decide),
   by decide⟩

/-- The late branch of `ensureValidToken`: what it returns and leaves is what
`authenticateWithBNB` returns and leaves. -/
theorem ensureValidToken_expired (rt : JSRuntime) (cache : TokenCache) (expiry now : Nat)
    (reply : AuthReply) (clock : Nat) (he : cache.tokenExpiry = some expiry)
    (hnow : expiry ≤ now) :
    (ensureValidToken rt cache now reply clock).authCalls = 1 ∧
    (ensureValidToken rt cache now reply clock).cache
      = (authenticateWithBNB rt clock reply).1 ∧
    (ensureValidToken rt cache now reply clock).result
      = (match (authenticateWithBNB rt clock reply).2 with
        | Except.ok _ => Except.ok ()
        | Except.error _ => Except.error "Falha na autenticação com o banco") := by
  have hlt : ¬ now < expiry := by omega
  unfold ensureValidToken
  simp only [he, hlt, decide_False, Bool.and_false, Bool.false_eq_true, if_false]
  cases hres : authenticateWithBNB rt clock reply with
  | mk after outcome =>
    cases outcome with
    | ok v => exact ⟨rfl, rfl, rfl⟩
    | error e => exact ⟨rfl, rfl, rfl⟩

/-- C16: after `authenticateWithBNB` obtains a token at time `T`
(milliseconds), the cached expiry is exactly `T + (3600 - 300) * 1000`;
`ensureValidToken` called at any time before `T + 3300 s` keeps the cache,
does not call the authentication endpoint and returns; called at any time
from `T + 3300 s` on, at `T + 3301 s` in particular, it re-authenticates: it
calls the endpoint once, leaves the cache that `authenticateWithBNB` leaves
for the answer of the bank (the new token with expiry `clock + 3300 s` when
the bank answers with success, the cleared cache otherwise) and returns or
throws as `authenticateWithBNB` does. -/
theorem ensureValidToken_window (rt : JSRuntime) (T : Nat) (d : AuthData)
    (hs : d.success.truthy = true) (ht : d.message.truthy = true) :
    (authenticateWithBNB rt T (AuthReply.data d)).1.accessToken = d.message ∧
    (authenticateWithBNB rt T (AuthReply.data d)).1.tokenExpiry
      = some (T + (3600 - 300) * 1000) ∧
    (∀ now reply clock, now < T + 3300 * 1000 →
      (ensureValidToken rt (authenticateWithBNB rt T (AuthReply.data d)).1 now reply
        clock).authCalls = 0 ∧
      (ensureValidToken rt (authenticateWithBNB rt T (AuthReply.data d)).1 now reply
        clock).cache = (authenticateWithBNB rt T (AuthReply.data d)).1 ∧
      (ensureValidToken rt (authenticateWithBNB rt T (AuthReply.data d)).1 now reply
        clock).result = Except.ok ()) ∧
    (∀ now reply clock, T + 3300 * 1000 ≤ now →
      (ensureValidToken rt (authenticateWithBNB rt T (AuthReply.data d)).1 now reply
        clock).authCalls = 1 ∧
      (ensureValidToken rt (authenticateWithBNB rt T (AuthReply.data d)).1 now reply
        clock).cache = (authenticateWithBNB rt clock reply).1 ∧
      (ensureValidToken rt (authenticateWithBNB rt T (AuthReply.data d)).1 now reply
        clock).result
        = (match (authenticateWithBNB rt clock reply).2 with
          | Except.ok _ => Except.ok ()
          | Except.error _ => Except.error "Falha na autenticação com o banco")) ∧
    (∀ now clock (fresh : AuthData), T + 3300 * 1000 ≤ now → fresh.success.truthy = true →
      (ensureValidToken rt (authenticateWithBNB rt T (AuthReply.data d)).1 now
        (AuthReply.data fresh) clock).cache
        = { accessToken := fresh.message, tokenExpiry := some (clock + 3300 * 1000) } ∧
      (ensureValidToken rt (authenticateWithBNB rt T (AuthReply.data d)).1 now
        (AuthReply.data fresh) clock).result = Except.ok ()) ∧
    (∀ now clock e, T + 3300 * 1000 ≤ now →
      (ensureValidToken rt (authenticateWithBNB rt T (AuthReply.data d)).1 now
        (AuthReply.rejected e) clock).cache
        = { accessToken := JSValue.null, tokenExpiry := none } ∧
      (ensureValidToken rt (authenticateWithBNB rt T (AuthReply.data d)).1 now
        (AuthReply.rejected e) clock).result
        = Except.error "Falha na autenticação com o banco") ∧
    (∀ reply clock,
      (ensureValidToken rt (authenticateWithBNB rt T (AuthReply.data d)).1 (T + 3301 * 1000)
        reply clock).authCalls = 1 ∧
      (ensureValidToken rt (authenticateWithBNB rt T (AuthReply.data d)).1 (T + 3301 * 1000)
        reply clock).cache = (authenticateWithBNB rt clock reply).1) := by
  have hcache : (authenticateWithBNB rt T (AuthReply.data d)).1
      = { accessToken := d.message, tokenExpiry := some (T + (3600 - 300) * 1000) } := by
    simp [authenticateWithBNB, hs]
  have hexp : (authenticateWithBNB rt T (AuthReply.data d)).1.tokenExpiry
      = some (T + 3300000) := by
    rw [hcache]
  have late : ∀ now reply clock, T + 3300 * 1000 ≤ now →
      (ensureValidToken rt (authenticateWithBNB rt T (AuthReply.data d)).1 now reply
        clock).authCalls = 1 ∧
      (ensureValidToken rt (authenticateWithBNB rt T (AuthReply.data d)).1 now reply
        clock).cache = (authenticateWithBNB rt clock reply).1 ∧
      (ensureValidToken rt (authenticateWithBNB rt T (AuthReply.data d)).1 now reply
        clock).result
        = (match (authenticateWithBNB rt clock reply).2 with
          | Except.ok _ => Except.ok ()
          | Except.error _ => Except.error "Falha na autenticação com o banco") := by
    intro now reply clock hnow
    exact ensureValidToken_expired rt _ (T + 3300000) now reply clock hexp (by omega)
  refine ⟨by rw [hcache], by rw [hcache], ?_, late, ?_, ?_, ?_⟩
  · intro now reply clock hnow
    have hlt : now < T + 3300000 := by omega
    rw [hcache]
    simp [ensureValidToken, ht, hlt]
  · intro now clock fresh hnow hfresh
    obtain ⟨_, h2, h3⟩ := late now (AuthReply.data fresh) clock hnow
    rw [h2, h3]
    simp [authenticateWithBNB, hfresh]
  · intro now clock e hnow
    obtain ⟨_, h2, h3⟩ := late now (AuthReply.rejected e) clock hnow
    rw [h2, h3]
    simp [authenticateWithBNB]
  · intro reply clock
    obtain ⟨h1, h2, _⟩ := late (T + 3301 * 1000) reply clock (by omega)
    exact ⟨h1, h2⟩

/-- Witness of C16: a token issued at time 1000 ms is reused one millisecond
before `1000 + 3300000` ms, and at `1000 + 3300000` ms a new token is
fetched and cached with its own expiry. -/
theorem ensureValidToken_window_witness :
    ({ success := JSValue.bool true, message := JSValue.str "tok" } : AuthData).success.truthy
      = true ∧
    ({ success := JSValue.bool true, message := JSValue.str "tok" } : AuthData).message.truthy
      = true ∧
    (ensureValidToken refRuntime
      (authenticateWithBNB refRuntime 1000
        (AuthReply.data { success := JSValue.bool true, message := JSValue.str "tok" })).1
      3300999 (AuthReply.rejected "down") 3300999).authCalls = 0 ∧
    (ensureValidToken refRuntime
      (authenticateWithBNB refRuntime 1000
        (AuthReply.data { success := JSValue.bool true, message := JSValue.str "tok" })).1
      3301000 (AuthReply.data { success := JSValue.bool true, message := JSValue.str "tok2" })
      3301500).cache
      = { accessToken := JSValue.str "tok2", tokenExpiry := some (3301500 + 3300 * 1000) } :=
  ⟨by decide, by decide,
   ((ensureValidToken_window refRuntime 1000
      { success := JSValue.bool true, message := JSValue.str "tok" }
      (by decide) (by decide)).2.2.1 3300999 (AuthReply.rejected "down") 3300999
      (by decide)).1,
   ((ensureValidToken_window refRuntime 1000
      { success := JSValue.bool true, message := JSValue.str "tok" }
      (by decide) (by decide)).2.2.2.2.1 3301000 3301500
      { success := JSValue.bool true, message := JSValue.str "tok2" }
      (by decide) (by decide)).1⟩

/-- A record that carries none of the three provider fields still carries
none after any sequence of `updateStoredPaymentStatus` and
`notifyPurchaseWebhookOnce` calls. -/
theorem applyOps_keeps_provider_fields (rt : JSRuntime) (ops : List StoreOp) :
    ∀ (file : StoreFile) (key : String) (record : PaymentRecord),
      getStoredPaymentData file key = some record →
      record.provider_status_code = JSValue.undefined →
      record.provider_qr_id = JSValue.undefined →
      record.voucher_id = JSValue.undefined →
      ∃ after,
        getStoredPaymentData (applyOps rt file ops) key = some after ∧
        after.provider_status_code = JSValue.undefined ∧
        after.provider_qr_id = JSValue.undefined ∧
        after.voucher_id = JSValue.undefined := by
  induction ops with
  | nil =>
    intro file key record hg h1 h2 h3
    exact ⟨record, hg, h1, h2, h3⟩
  | cons op rest ih =>
    intro file key record hg h1 h2 h3
    cases op with
    | update now paymentId statusObj =>
      obtain ⟨mid, hmid, _, m1, m2, m3⟩ :=
        updateStoredPaymentStatus_keeps now file key paymentId statusObj record hg
      exact ih _ key mid hmid (m1.trans h1) (m2.trans h2) (m3.trans h3)
    | notify now paymentId post =>
      obtain ⟨mid, hmid, _, m1, m2, m3⟩ :=
        notifyPurchaseWebhookOnce_keeps rt now file key paymentId post record hg
      exact ih _ key mid hmid (m1.trans h1) (m2.trans h2) (m3.trans h3)

/-- C17: for a record created by a successful `createQRSimplePayment` (on a
store file that is absent or readable) and then modified by any sequence of
`updateStoredPaymentStatus` and `notifyPurchaseWebhookOnce` calls, whatever
their status objects carry, the record is still stored under its payment id
and `buildPurchasePayload` gives it `meta.provider_status_code`,
`meta.provider_qr_id` and `meta.voucher_id` all `null`. -/
theorem buildPurchasePayload_provider_meta_null (rt : JSRuntime) (ctx : CreateContext)
    (file : StoreFile) (paymentData : PaymentData) (reply : CreateReply)
    (record : PaymentRecord) (ops : List StoreOp) (now : String)
    (hfile : ∀ e, file ≠ StoreFile.unreadable e)
    (hres : (createQRSimplePayment rt ctx file paymentData reply).result
      = CreateResult.success record) :
    ∃ after,
      getStoredPaymentData
        (applyOps rt (createQRSimplePayment rt ctx file paymentData reply).file ops)
        (record.payment_id.toStr rt) = some after ∧
      (buildPurchasePayload rt now after).meta.provider_status_code = JSValue.null ∧
      (buildPurchasePayload rt now after).meta.provider_qr_id = JSValue.null ∧
      (buildPurchasePayload rt now after).meta.voucher_id = JSValue.null := by
  obtain ⟨hf, h1, h2, h3, _⟩ :=
    createQRSimplePayment_success rt ctx file paymentData reply record hres
  have hstored : ∃ stored,
      getStoredPaymentData (createQRSimplePayment rt ctx file paymentData reply).file
        (record.payment_id.toStr rt) = some stored ∧
      stored.provider_status_code = JSValue.undefined ∧
      stored.provider_qr_id = JSValue.undefined ∧
      stored.voucher_id = JSValue.undefined := by
    rw [hf]
    rcases storePaymentData_read rt file record hfile with h | h
    · exact ⟨_, h, by simp [PaymentRecord.toJSON, h1, JSValue.toJSON],
        by simp [PaymentRecord.toJSON, h2, JSValue.toJSON],
        by simp [PaymentRecord.toJSON, h3, JSValue.toJSON]⟩
    · exact ⟨_, h, rfl, rfl, rfl⟩
  obtain ⟨stored, hs, s1, s2, s3⟩ := hstored
  obtain ⟨after, hafter, a1, a2, a3⟩ :=
    applyOps_keeps_provider_fields rt ops _ _ stored hs s1 s2 s3
  refine ⟨after, hafter, ?_, ?_, ?_⟩
  · simp [buildPurchasePayload, a1, JSValue.or, JSValue.truthy]
  · simp [buildPurchasePayload, a2, JSValue.or, JSValue.truthy]
  · simp [buildPurchasePayload, a3, JSValue.or, JSValue.truthy]

/-- Witness of C17: the sample record, created and then updated with a paid
poll result that carries a provider id and a voucher id and notified, yields a
payload whose three provider fields are `null`. -/
theorem buildPurchasePayload_provider_meta_null_witness :
    (createQRSimplePayment refRuntime CreateContext.sample StoreFile.missing PaymentData.sample
      CreateReply.sample).result = CreateResult.success PaymentRecord.created ∧
    ∃ after,
      getStoredPaymentData
        (applyOps refRuntime
          (createQRSimplePayment refRuntime CreateContext.sample StoreFile.missing
            PaymentData.sample CreateReply.sample).file
          [StoreOp.update "t1" "q1"
            (checkQRSimpleStatus refRuntime (JSValue.str "q1") (ProviderReply.data
              { StatusData.empty with
                statusId := JSValue.num (JSNum.fin 2)
                id := JSValue.num (JSNum.fin 7)
                voucherId := JSValue.str "V1" })),
           StoreOp.notify "t2" "q1" allResolved])
        (PaymentRecord.created.payment_id.toStr refRuntime) = some after ∧
      (buildPurchasePayload refRuntime "t3" after).meta.provider_status_code = JSValue.null ∧
      (buildPurchasePayload refRuntime "t3" after).meta.provider_qr_id = JSValue.null ∧
      (buildPurchasePayload refRuntime "t3" after).meta.voucher_id = JSValue.null :=
  ⟨by decide,
   buildPurchasePayload_provider_meta_null refRuntime CreateContext.sample StoreFile.missing
      PaymentData.sample CreateReply.sample PaymentRecord.created
      [StoreOp.update "t1" "q1"
        (checkQRSimpleStatus refRuntime (JSValue.str "q1") (ProviderReply.data
          { StatusData.empty with
            statusId := JSValue.num (JSNum.fin 2)
            id := JSValue.num (JSNum.fin 7)
            voucherId := JSValue.str "V1" })),
       StoreOp.notify "t2" "q1" allResolved]
      "t3" (fun _ h => StoreFile.noConfusion h) (by decide)⟩

theorem PaymentRecord.inherited_consistent : PaymentRecord.inherited.consistent := by
  constructor <;> intro h <;> simp [PaymentRecord.inherited, JSValue.truthy] at h

theorem Payments.read_set_cases (payments : Payments) (key paymentId : String)
    (record r : PaymentRecord) (h : (payments.set key record).read paymentId = some r) :
    r = record ∨ payments.read paymentId = some r := by
  by_cases hk : key = paymentId
  · subst hk
    by_cases hne : key ≠ "__proto__" ∨ payments.get key ≠ none
    · rw [Payments.read_set_same _ _ _ hne] at h
      injection h with h
      exact Or.inl h.symm
    · have h1 : key = "__proto__" := by
        by_contra hc
        exact hne (Or.inl hc)
      have h2 : payments.get "__proto__" = none := by
        by_contra hc
        exact hne (Or.inr (h1 ▸ hc))
      subst h1
      rw [Payments.set_proto _ _ h2] at h
      exact Or.inr h
  · rw [Payments.read_set_other _ _ _ _ hk] at h
    exact Or.inr h

theorem Payments.get_erase (payments : Payments) (key paymentId : String) :
    (payments.erase key).get paymentId = if paymentId = key then none else payments.get paymentId := by
  induction payments with
  | nil => simp [Payments.erase, Payments.get]
  | cons kv rest ih =>
    obtain ⟨k, r⟩ := kv
    by_cases hk : k = key
    · subst hk
      by_cases hp : paymentId = k
      · subst hp
        simpa [Payments.erase] using ih
      · have hp2 : ¬ k = paymentId := fun h => hp h.symm
        simp [Payments.erase, Payments.get, ih, hp, hp2]
    · by_cases hp : k = paymentId
      · subst hp
        simp [Payments.erase, Payments.get, hk]
      · simp [Payments.erase, Payments.get, hk, hp, ih]

theorem Payments.consistent_nil : Payments.consistent [] := by
  intro paymentId r h
  rcases Payments.read_cases [] paymentId r h with h | ⟨_, _, h⟩
  · simp [Payments.get] at h
  · rw [h]
    exact PaymentRecord.inherited_consistent

theorem Payments.consistent_set (payments : Payments) (key : String) (record : PaymentRecord)
    (hc : payments.consistent) (hr : record.consistent) :
    (payments.set key record).consistent := by
  intro paymentId r h
  rcases Payments.read_set_cases payments key paymentId record r h with h | h
  · rw [h]
    exact hr
  · exact hc paymentId r h

theorem Payments.consistent_erase (payments : Payments) (key : String)
    (hc : payments.consistent) : (payments.erase key).consistent := by
  intro paymentId r h
  rcases Payments.read_cases _ paymentId r h with h | ⟨_, _, h⟩
  · rw [Payments.get_erase] at h
    by_cases hp : paymentId = key
    · simp [hp] at h
    · simp only [hp, if_false] at h
      exact hc paymentId r (Payments.read_of_get _ _ _ h)
  · rw [h]
    exact PaymentRecord.inherited_consistent

theorem storePaymentData_consistent (rt : JSRuntime) (file : StoreFile)
    (paymentData : PaymentRecord) (hc : file.consistent)
    (h1 : paymentData.is_paid = JSValue.undefined)
    (h2 : paymentData.webhook_notified = JSValue.undefined) :
    (storePaymentData rt file paymentData).consistent := by
  have hr : paymentData.toJSON.consistent := by
    constructor <;> intro h <;>
      simp [PaymentRecord.toJSON, h1, h2, JSValue.toJSON, JSValue.truthy] at h
  cases file with
  | missing => exact Payments.consistent_set _ _ _ Payments.consistent_nil hr
  | unreadable e => trivial
  | present payments => exact Payments.consistent_set _ _ _ hc hr

/-- The store file `createQRSimplePayment` leaves: the one it found, or the
one written by `storePaymentData` of a record without `is_paid` and without
`webhook_notified`. -/
theorem createQRSimplePayment_file (rt : JSRuntime) (ctx : CreateContext) (file : StoreFile)
    (paymentData : PaymentData) (reply : CreateReply) :
    (createQRSimplePayment rt ctx file paymentData reply).file = file ∨
    ∃ record,
      (createQRSimplePayment rt ctx file paymentData reply).file
        = storePaymentData rt file record ∧
      record.is_paid = JSValue.undefined ∧ record.webhook_notified = JSValue.undefined := by
  unfold createQRSimplePayment
  cases reply with
  | rejected details code => exact Or.inl rfl
  | data d =>
    dsimp only
    by_cases hs : d.success.truthy = true
    · simp only [hs, if_true]
      cases hq : qrCodeImage ((d.qr.or d.qrImage).or d.qrContent) with
      | none => exact Or.inl rfl
      | some image => exact Or.inr ⟨_, rfl, rfl, rfl⟩
    · simp only [hs]
      exact Or.inl rfl

theorem updateStoredPaymentStatus_consistent (now : String) (file : StoreFile)
    (paymentId : String) (statusObj : StatusResult) (hc : file.consistent)
    (hs : statusObj.status = JSValue.str "paid") :
    (updateStoredPaymentStatus now file paymentId statusObj).consistent := by
  cases file with
  | missing => trivial
  | unreadable e => trivial
  | present payments =>
    cases hr : payments.read paymentId with
    | none =>
      simp only [updateStoredPaymentStatus, hr]
      exact hc
    | some current =>
      simp only [updateStoredPaymentStatus, hr]
      refine Payments.consistent_set _ _ _ hc ?_
      have hst : (statusObj.status.or current.status).toJSON = JSValue.str "paid" := by
        simp [hs, JSValue.or, JSValue.truthy, JSValue.toJSON]
      exact ⟨fun _ => hst, fun _ => hst⟩

theorem notifyPurchaseWebhookOnce_consistent (rt : JSRuntime) (now : String) (file : StoreFile)
    (paymentId : String) (post : Nat → PostOutcome) (hc : file.consistent) :
    (notifyPurchaseWebhookOnce rt now file paymentId post).file.consistent := by
  rcases notifyPurchaseWebhookOnce_file rt now file paymentId post with
    ⟨hf, _, _⟩ | ⟨payments, payment, hpres, hget, hf, _, _, hpaid⟩
  · rw [hf]
    exact hc
  · rw [hf]
    subst hpres
    have hpc : payment.consistent := hc paymentId payment (Payments.read_of_get _ _ _ hget)
    have hst : payment.status = JSValue.str "paid" := by
      rcases hpaid with h | h
      · exact h
      · exact hpc.1 h
    exact Payments.consistent_set _ _ _ hc ⟨fun _ => hst, fun _ => hst⟩

theorem paymentStatusEndpoint_consistent (rt : JSRuntime) (now : String) (file : StoreFile)
    (paymentId : String) (reply : ProviderReply) (post : Nat → PostOutcome)
    (hc : file.consistent) :
    (paymentStatusEndpoint rt now file paymentId reply post).file.consistent := by
  by_cases hgate :
      ((checkQRSimpleStatus rt (JSValue.str paymentId) reply).success.truthy &&
        ((checkQRSimpleStatus rt (JSValue.str paymentId) reply).is_paid.truthy ||
          decide ((checkQRSimpleStatus rt (JSValue.str paymentId) reply).status
            = JSValue.str "paid"))) = true
  · have hpaid := checkQRSimpleStatus_gate rt (JSValue.str paymentId) reply
      (by simp only [Bool.and_eq_true] at hgate; exact hgate.2)
    have hfile : (paymentStatusEndpoint rt now file paymentId reply post).file
        = (notifyPurchaseWebhookOnce rt now
            (updateStoredPaymentStatus now file paymentId
              (checkQRSimpleStatus rt (JSValue.str paymentId) reply)) paymentId post).file := by
      unfold paymentStatusEndpoint
      simp only [hgate, if_true]
      split <;> rfl
    rw [hfile]
    exact notifyPurchaseWebhookOnce_consistent rt now _ paymentId post
      (updateStoredPaymentStatus_consistent now file paymentId _ hc hpaid.1)
  · have hfile : (paymentStatusEndpoint rt now file paymentId reply post).file = file := by
      unfold paymentStatusEndpoint
      simp only [hgate]
      rfl
    rw [hfile]
    exact hc

/-- Every store the program can leave is consistent: `is_paid` and
`webhook_notified` are set only on records whose status is `paid`. -/
theorem ReachableStore.consistent (rt : JSRuntime) (file : StoreFile)
    (h : ReachableStore rt file) : file.consistent := by
  induction h with
  | missing => trivial
  | unreadable e => trivial
  | empty => exact Payments.consistent_nil
  | create ctx file paymentData reply _ ih =>
    rcases createQRSimplePayment_file rt ctx file paymentData reply with hf | ⟨record, hf, h1, h2⟩
    · rw [hf]
      exact ih
    · rw [hf]
      exact storePaymentData_consistent rt file record ih h1 h2
  | poll now file paymentId reply post _ ih =>
    exact paymentStatusEndpoint_consistent rt now file paymentId reply post ih
  | prune payments paymentId _ ih =>
    exact Payments.consistent_erase payments paymentId ih

/-- C4: for every store the program can leave and every payment id whose
stored record has a status other than `paid`, `notifyPurchaseWebhookOnce`
returns `skipped` with reason `not_paid`, makes no webhook POST and leaves the
store as it was. -/
theorem notifyPurchaseWebhookOnce_skips_unpaid (rt : JSRuntime) (file : StoreFile)
    (hreach : ReachableStore rt file) (now : String) (paymentId : String)
    (post : Nat → PostOutcome) (payment : PaymentRecord)
    (hg : getStoredPaymentData file paymentId = some payment)
    (hs : payment.status ≠ JSValue.str "paid") :
    (notifyPurchaseWebhookOnce rt now file paymentId post).result
      = NotifyResult.skipped "not_paid" ∧
    (notifyPurchaseWebhookOnce rt now file paymentId post).posts = [] ∧
    (notifyPurchaseWebhookOnce rt now file paymentId post).deliveries = 0 ∧
    (notifyPurchaseWebhookOnce rt now file paymentId post).file = file := by
  have hc := ReachableStore.consistent rt file hreach
  cases file with
  | missing => simp [getStoredPaymentData] at hg
  | unreadable e => simp [getStoredPaymentData] at hg
  | present payments =>
    simp only [getStoredPaymentData] at hg
    have hpc : payment.consistent := hc paymentId payment hg
    have hp : payment.is_paid.truthy = false := by
      cases h : payment.is_paid.truthy with
      | false => rfl
      | true => exact absurd (hpc.1 h) hs
    have hn : payment.webhook_notified.truthy = false := by
      cases h : payment.webhook_notified.truthy with
      | false => rfl
      | true => exact absurd (hpc.2 h) hs
    simp [notifyPurchaseWebhookOnce, NotifyRun.quiet, hg, hn, hs, hp]

/-- Witness of C4: on the store left by the creation of the sample payment,
the pending record `q1` is skipped as not paid. -/
theorem notifyPurchaseWebhookOnce_skips_unpaid_witness :
    getStoredPaymentData
      (createQRSimplePayment refRuntime CreateContext.sample StoreFile.missing
        PaymentData.sample CreateReply.sample).file "q1" = some PaymentRecord.created ∧
    PaymentRecord.created.status ≠ JSValue.str "paid" ∧
    (notifyPurchaseWebhookOnce refRuntime "t1"
      (createQRSimplePayment refRuntime CreateContext.sample StoreFile.missing
        PaymentData.sample CreateReply.sample).file "q1" allResolved).result
      = NotifyResult.skipped "not_paid" :=
  ⟨by decide, by decide,
   (notifyPurchaseWebhookOnce_skips_unpaid refRuntime _
      (ReachableStore.create CreateContext.sample StoreFile.missing PaymentData.sample
        CreateReply.sample ReachableStore.missing)
      "t1" "q1" allResolved PaymentRecord.created (by decide) (by decide)).1⟩

/-- A payment id that is no own key of the store and names a member of
`Object.prototype` finds the inherited member, and the notifier answers
`not_paid`. -/
theorem notifyPurchaseWebhookOnce_inherited (rt : JSRuntime) (now : String)
    (payments : Payments) (paymentId : String) (post : Nat → PostOutcome)
    (hg : payments.get paymentId = none) (hm : paymentId ∈ objectPrototypeNames) :
    (notifyPurchaseWebhookOnce rt now (StoreFile.present payments) paymentId post).result
      = NotifyResult.skipped "not_paid" := by
  simp [notifyPurchaseWebhookOnce, NotifyRun.quiet, Payments.read, hg, hm,
    PaymentRecord.inherited, JSValue.truthy]

end LpWebhook
